import Mathlib

/-!
Shallow embedding of the rust-gamegboycolor emulator core, translated from
the repository sources (src/src/*.rs), together with theorems settling the
claims about it.  Machine integers are modelled as `Nat` with explicit
`% 2^w` where the Rust code wraps; a Rust panic (`unreachable!`, slice index
out of bounds) is modelled as `none` of an `Option` result.
-/

/-- Iterate a function n times (used to run n machine-cycle ticks). -/
def applyN {α : Type} (f : α → α) : Nat → α → α
  | 0, x => x
  | n + 1, x => applyN f n (f x)

/-- Device mode, from src/src/config.rs (`DeviceMode`). -/
inductive DeviceMode where
  | GameBoy
  | GameBoyColor
deriving DecidableEq, Repr

/-- Speed, from src/src/config.rs (`Speed`; bitfield specifier, default Normal). -/
inductive Speed where
  | Normal
  | Double
deriving DecidableEq, Repr

/-- A Rust `Vec<u8>` (or fixed byte array): a length and the byte contents.
Indexing out of bounds is a panic in Rust; `read`/`write` return `none` there. -/
structure ByteVec where
  size : Nat
  byte : Nat → Nat

/-- Rust `v[i]` for a byte vector: panics (none) when out of bounds. -/
def ByteVec.read (v : ByteVec) (i : Nat) : Option Nat :=
  if i < v.size then some (v.byte i) else none

/-- Rust `v[i] = x`: panics (none) when out of bounds. -/
def ByteVec.write (v : ByteVec) (i x : Nat) : Option ByteVec :=
  if i < v.size then
    some { v with byte := fun j => if j = i then x else v.byte j }
  else none

/-- All-zero byte vector of a given size (`vec![0; n]`). -/
def ByteVec.zeros (n : Nat) : ByteVec :=
  { size := n, byte := fun _ => 0 }

/-- Interrupt flag register IF, from src/src/interrupt.rs (`InterruptFlag`):
five named bits, low to high: VBlank, LCD, Timer, Serial, Joypad. -/
structure IntFlags where
  vblank : Bool
  lcd : Bool
  timer : Bool
  serial : Bool
  joypad : Bool
deriving DecidableEq, Repr

/-- `InterruptFlag::new()`: all bits clear. -/
def IntFlags.new : IntFlags :=
  { vblank := false, lcd := false, timer := false, serial := false, joypad := false }

/-- Cartridge ROM image with its parsed header fields, from
src/src/cartridge/rom.rs (`Rom`): the byte data plus the header-decoded
ROM size, RAM size and has-RAM capability used by the MBCs. -/
structure Rom where
  data : ByteVec
  romSize : Nat
  ramSize : Nat
  haveRam : Bool

namespace RomOnly

/-- src/src/cartridge/mbc/rom_only.rs (`RomOnly`): just the ROM bytes. -/
structure State where
  rom : ByteVec

/-- `RomOnly::new`: copies the ROM data. -/
def new (rom : Rom) : State := { rom := rom.data }

/-- `RomOnly::read`: unchecked linear index into the ROM bytes
(`self.rom[address as usize]`); out of range is a panic (`none`). -/
def read (s : State) (address : Nat) : Option Nat :=
  s.rom.read address

/-- `RomOnly::write`: does nothing. -/
def write (s : State) (_address _value : Nat) : State := s

end RomOnly

namespace Mbc2

/-- src/src/cartridge/mbc/mbc2.rs (`Mbc2`). -/
structure State where
  rom : Rom
  rom_bank : Nat
  rom_bank_mask : Nat
  ram : ByteVec
  ram_enable : Bool

/-- `Mbc2::new`: mask from the header ROM size; 512-byte RAM when no backup. -/
def new (rom : Rom) (backup : Option ByteVec) : State :=
  let rom_bank_num := rom.romSize / 0x4000
  let rom_bank_mask := (rom_bank_num - 1) % 256
  let ram := match backup with
    | some data => data
    | none => ByteVec.zeros 512
  { rom := rom, rom_bank := 1, rom_bank_mask := rom_bank_mask,
    ram := ram, ram_enable := false }

/-- `Mbc2::read`.  The match covers $0000-7FFF and $A000-A1FF only; every
other address (in particular $A200-BFFF, which the bus routes here) hits
`unreachable!` - a panic, modelled as `none`. -/
def read (s : State) (address : Nat) : Option Nat :=
  if address ≤ 0x3FFF then
    s.rom.data.read address
  else if address ≤ 0x7FFF then
    let bank := (s.rom_bank &&& s.rom_bank_mask) * 0x4000
    let offset := address - 0x4000
    s.rom.data.read (bank + offset)
  else if 0xA000 ≤ address ∧ address ≤ 0xA1FF then
    if s.ram_enable then
      let address := (address &&& 0x1FF) / 2
      match s.ram.read address with
      | some data =>
          some (if address % 2 = 0 then data &&& 0x0F else data >>> 4)
      | none => none
    else
      some 0xFF
  else
    none

/-- `Mbc2::write`.  Addresses outside $0000-3FFF and $A000-BFFF hit
`unreachable!` (none). -/
def write (s : State) (address value : Nat) : Option State :=
  if address ≤ 0x3FFF then
    if address &&& 0x100 = 0 then
      some { s with ram_enable := value &&& 0x0F = 0x0A }
    else
      some { s with rom_bank := max (value &&& 0x0F) 1 }
  else if 0xA000 ≤ address ∧ address ≤ 0xBFFF then
    if s.ram_enable then
      let address := (address &&& 0x1FF) / 2
      match s.ram.read address with
      | some data =>
          let newData :=
            if address % 2 = 0 then (data &&& 0xF0) ||| (value &&& 0x0F)
            else (data &&& 0x0F) ||| ((value <<< 4) % 256)
          match s.ram.write address newData with
          | some ram => some { s with ram := ram }
          | none => none
      | none => none
    else
      some s
  else
    none

end Mbc2

namespace Mbc1

/-- src/src/cartridge/mbc/mbc1.rs (`Mbc1`). -/
structure State where
  rom : Rom
  ram : ByteVec
  ram_enable : Bool
  rom_bank : Nat
  ram_bank_or_upper_rom_bank : Nat
  rom_bank_mask : Nat
  ram_bank_mask : Nat
  banking_mode : Bool

/-- `Mbc1::new`: RAM from backup or zeroed to the header RAM size; bank masks
`(size / bank_size).saturating_sub(1) as u8`; `ram_bank_or_upper_rom_bank`
starts at 1. -/
def new (rom : Rom) (backup : Option ByteVec) : State :=
  let ram := match backup with
    | some data => data
    | none => ByteVec.zeros rom.ramSize
  let rom_bank_mask := (rom.romSize / 0x4000 - 1) % 256
  let ram_bank_mask := (rom.ramSize / 0x2000 - 1) % 256
  { rom := rom, ram := ram, ram_enable := false, rom_bank := 1,
    ram_bank_or_upper_rom_bank := 1, rom_bank_mask := rom_bank_mask,
    ram_bank_mask := ram_bank_mask, banking_mode := false }

/-- `Mbc1::read`. -/
def read (s : State) (address : Nat) : Option Nat :=
  if address ≤ 0x3FFF then
    let rom_bank :=
      if s.banking_mode then
        ((s.ram_bank_or_upper_rom_bank <<< 5) % 256) &&& s.rom_bank_mask
      else 0
    s.rom.data.read (rom_bank * 0x4000 + address)
  else if address ≤ 0x7FFF then
    let rom_bank :=
      (((s.ram_bank_or_upper_rom_bank <<< 5) % 256 ||| s.rom_bank) &&& s.rom_bank_mask)
    s.rom.data.read (rom_bank * 0x4000 + (address &&& 0x3FFF))
  else if 0xA000 ≤ address ∧ address ≤ 0xBFFF then
    if s.ram_enable then
      let ram_bank :=
        if s.banking_mode then s.ram_bank_or_upper_rom_bank &&& s.ram_bank_mask
        else 0
      s.ram.read (ram_bank * 0x2000 + (address &&& 0x1FFF))
    else
      some 0xFF
  else
    none

/-- `Mbc1::write`. -/
def write (s : State) (address value : Nat) : Option State :=
  if address ≤ 0x1FFF then
    some { s with ram_enable := value &&& 0x0F = 0x0A }
  else if address ≤ 0x3FFF then
    some { s with rom_bank := max (value &&& 0x1F) 1 }
  else if address ≤ 0x5FFF then
    some { s with ram_bank_or_upper_rom_bank := value &&& 0x03 }
  else if address ≤ 0x7FFF then
    some { s with banking_mode := value &&& 0x01 = 0x01 }
  else if 0xA000 ≤ address ∧ address ≤ 0xBFFF then
    if s.ram_enable then
      let ram_bank :=
        if s.banking_mode then s.ram_bank_or_upper_rom_bank &&& s.ram_bank_mask
        else 0
      match s.ram.write (ram_bank * 0x2000 + (address &&& 0x1FFF)) value with
      | some ram => some { s with ram := ram }
      | none => none
    else
      some s
  else
    none

end Mbc1

namespace Joypad

/-- src/src/joypad.rs (`Joypad`): the key bitmask (bit set = key pressed,
bits low to high: Right, Left, Up, Down, A, B, Select, Start) and the two
group-select latches. -/
structure State where
  key_state : Nat
  direction_selected : Bool
  action_selected : Bool
deriving DecidableEq, Repr

/-- `Joypad::new()`. -/
def new : State :=
  { key_state := 0, direction_selected := false, action_selected := false }

/-- `Joypad::read` of $FF00 (`get_direction` is `!bits & 0x0F`,
`get_action` is `(!bits >> 4) & 0x0F`). -/
def read (s : State) : Nat :=
  let ret := 0xCF
  let ret := if s.direction_selected then
      let ret := ret &&& 0xEF
      (ret &&& 0xF0) ||| ((s.key_state ^^^ 0xFF) &&& 0x0F)
    else ret
  let ret := if s.action_selected then
      let ret := ret &&& 0xDF
      (ret &&& 0xF0) ||| (((s.key_state ^^^ 0xFF) >>> 4) &&& 0x0F)
    else ret
  ret

/-- `Joypad::write` of $FF00. -/
def write (s : State) (value : Nat) : State :=
  { s with direction_selected := value &&& 0x10 = 0,
           action_selected := value &&& 0x20 = 0 }

/-- `Joypad::set_key`: computes `changed_keys = prev ^ cur` and
`pressed_keys = changed_keys & !cur` and raises the Joypad interrupt when
that is non-zero.  Note `changed & !cur` selects bits that changed and are
now CLEAR, i.e. keys that were just released. -/
def set_key (s : State) (iflags : IntFlags) (key_state : Nat) : State × IntFlags :=
  let prev_key := s.key_state
  let cur_key := key_state
  let changed_keys := prev_key ^^^ cur_key
  let pressed_keys := changed_keys &&& (cur_key ^^^ 0xFF)
  let iflags := if pressed_keys ≠ 0 then { iflags with joypad := true } else iflags
  ({ s with key_state := key_state }, iflags)

end Joypad

namespace Timer

/-- src/src/timer.rs (`Timer`). -/
structure State where
  div : Nat
  tima : Nat
  tma : Nat
  tac : Nat
  div_counter : Nat
  tima_counter : Nat
  tima_enable : Bool
deriving DecidableEq, Repr

/-- `Timer::new()`: everything zero. -/
def new : State :=
  { div := 0, tima := 0, tma := 0, tac := 0,
    div_counter := 0, tima_counter := 0, tima_enable := false }

/-- `Timer::read`: $FF04 returns the HIGH byte of the 16-bit `div` field;
other timer registers as stored; anything else is `unreachable!`. -/
def read (s : State) (address : Nat) : Option Nat :=
  if address = 0xFF04 then some ((s.div >>> 8) % 256)
  else if address = 0xFF05 then some s.tima
  else if address = 0xFF06 then some s.tma
  else if address = 0xFF07 then some (((cond s.tima_enable 1 0) <<< 2) ||| s.tac)
  else none

/-- `Timer::write`. -/
def write (s : State) (address value : Nat) : Option State :=
  if address = 0xFF04 then some { s with div := 0 }
  else if address = 0xFF05 then some { s with tima := value }
  else if address = 0xFF06 then some { s with tma := value }
  else if address = 0xFF07 then
    some { s with tac := value &&& 0x03, tima_enable := (value >>> 2) &&& 0x01 = 1 }
  else none

/-- `Timer::tick_div`: `div` (a u16) increments once every 64 calls. -/
def tick_div (s : State) : State :=
  let div_counter := s.div_counter + 1
  if div_counter = 64 then
    { s with div_counter := 0, div := (s.div + 1) % 65536 }
  else
    { s with div_counter := div_counter }

/-- `Timer::tick_tima`; the returned Bool is whether the Timer interrupt
was raised (`context.set_interrupt_timer(true)`).  The `tac & 0x03` match
arm for values above 3 is unreachable since the mask keeps the result
below 4, so the final else of the threshold chain is the value-3 case. -/
def tick_tima (s : State) (speed : Speed) : State × Bool :=
  if s.tima_enable = false then (s, false)
  else
    let tac_threshold : Nat :=
      if s.tac &&& 0x03 = 0 then 256
      else if s.tac &&& 0x03 = 1 then 4
      else if s.tac &&& 0x03 = 2 then 16
      else 64
    let tac_threshold := if speed = Speed.Double then tac_threshold / 2 else tac_threshold
    let tima_counter := (s.tima_counter + 1) % 65536
    if tima_counter = tac_threshold then
      if s.tima = 255 then
        ({ s with tima_counter := 0, tima := s.tma }, true)
      else
        ({ s with tima_counter := 0, tima := s.tima + 1 }, false)
    else
      ({ s with tima_counter := tima_counter }, false)

/-- `Timer::tick`: one call per CPU machine-cycle tick (`Inner1::tick` in
src/src/context.rs forwards exactly one `timer_tick` per bus tick, and a
NOP instruction costs exactly one such tick - its single opcode fetch). -/
def tick (s : State) (speed : Speed) : State × Bool :=
  tick_tima (tick_div s) speed

/-- Timer state after n machine cycles (n NOPs) from reset, normal speed. -/
def afterCycles (n : Nat) : State :=
  applyN (fun s => (tick s Speed.Normal).1) n new

end Timer

namespace Cpu

/-- src/src/cpu.rs (`Flags`): a bitfield with four skipped low bits, then
carry (bit 4), half_carry (bit 5), subtract (bit 6), zero (bit 7). -/
structure Flags where
  carry : Bool
  half_carry : Bool
  subtract : Bool
  zero : Bool
deriving DecidableEq, Repr

/-- `Flags::new()`: the bitfield constructor zeroes every bit. -/
def Flags.new : Flags :=
  { carry := false, half_carry := false, subtract := false, zero := false }

/-- The F register byte packed from the flag bits. -/
def Flags.toByte (f : Flags) : Nat :=
  ((cond f.carry 1 0) <<< 4) ||| ((cond f.half_carry 1 0) <<< 5) |||
    ((cond f.subtract 1 0) <<< 6) ||| ((cond f.zero 1 0) <<< 7)

/-- src/src/cpu.rs (`Registers`). -/
structure Registers where
  a : Nat
  b : Nat
  c : Nat
  d : Nat
  e : Nat
  h : Nat
  l : Nat
  f : Flags
  pc : Nat
  sp : Nat
deriving DecidableEq, Repr

/-- `Registers::default()` (src/src/cpu.rs): the only seeding of the
register file.  It takes no device-mode parameter and sets
`f: Flags::new()` (= $00). -/
def Registers.default : Registers :=
  { a := 0x01, b := 0x00, c := 0x13, d := 0x00, e := 0xD8,
    h := 0x01, l := 0x4D, f := Flags.new, pc := 0x100, sp := 0xFFFE }

/-- src/src/cpu.rs (`Cpu`), register-level fields. -/
structure State where
  registers : Registers
  ime : Bool
  halt : Bool
  clock : Nat
  counter : Nat
deriving DecidableEq, Repr

/-- `Cpu::new()`: seeds registers from `Registers::default()` in every
device mode (the constructor has no mode-dependent path). -/
def new : State :=
  { registers := Registers.default, ime := false, halt := false,
    clock := 0, counter := 0 }

/-- `Cpu::stop` (the handler of opcode $10): only sets the halt flag. -/
def stop (s : State) : State :=
  { s with halt := true }

end Cpu

namespace Config

/-- src/src/config.rs (`PrepareSpeedSwitch`): a byte whose bit 0 is
`armed` and bit 7 is `speed`. -/
structure PrepareSpeedSwitch where
  bits : Nat
deriving DecidableEq, Repr

/-- `armed` accessor (bit 0). -/
def PrepareSpeedSwitch.armed (p : PrepareSpeedSwitch) : Bool :=
  p.bits &&& 1 = 1

/-- `speed` accessor (bit 7). -/
def PrepareSpeedSwitch.speed (p : PrepareSpeedSwitch) : Speed :=
  if (p.bits >>> 7) &&& 1 = 1 then Speed.Double else Speed.Normal

/-- src/src/config.rs (`Config`). -/
structure State where
  device_mode : DeviceMode
  speed_switch : PrepareSpeedSwitch
deriving DecidableEq, Repr

/-- `Config::new`: speed switch defaults to the zero byte. -/
def new (device_mode : DeviceMode) : State :=
  { device_mode := device_mode, speed_switch := { bits := 0 } }

/-- `Config::set_speed_switch`: replaces the WHOLE byte with `value & 0x01`
(so the stored speed bit is also reset to 0 by every write). -/
def set_speed_switch (c : State) (value : Nat) : State :=
  { c with speed_switch := { bits := value &&& 0x01 } }

/-- `Config::get_speed_switch`. -/
def get_speed_switch (c : State) : Nat :=
  c.speed_switch.bits ||| 0x7E

/-- `Config::current_speed`. -/
def current_speed (c : State) : Speed :=
  c.speed_switch.speed

end Config

/-- Effect of executing opcode $10 on the CPU and config state:
src/src/cpu.rs dispatches `0x10 => self.stop()`, and `Cpu::stop` touches
only the CPU halt flag - nothing in the dispatch path reads or writes the
speed switch, so the config comes through unchanged. -/
def stepStop (cpu : Cpu.State) (cfg : Config.State) : Cpu.State × Config.State :=
  (Cpu.stop cpu, cfg)

namespace Serial

/-- Model of the host link collaborator (the `LinkCable` trait of
src/src/interface.rs): a stream of responses that `try_recv` consumes one
per call, and the log of bytes passed to `send`. -/
structure LinkCable where
  recv_stream : List (Option Nat)
  sent : List Nat
deriving DecidableEq, Repr

/-- `try_recv`: yields the head of the response stream. -/
def LinkCable.try_recv (lc : LinkCable) : Option Nat × LinkCable :=
  match lc.recv_stream with
  | [] => (none, { lc with recv_stream := [] })
  | r :: rest => (r, { lc with recv_stream := rest })

/-- `send`. -/
def LinkCable.send (lc : LinkCable) (data : Nat) : LinkCable :=
  { lc with sent := lc.sent ++ [data] }

/-- src/src/serial.rs (`Sc`, the $FF02 byte): bit 0 clock_select
(0 external, 1 internal), bit 1 clock_speed, bit 7
transfer_requested_or_progress. -/
structure Sc where
  bits : Nat
deriving DecidableEq, Repr

/-- transfer_requested_or_progress accessor (bit 7). -/
def Sc.transferFlag (sc : Sc) : Bool :=
  (sc.bits >>> 7) &&& 1 = 1

/-- clock_select accessor (bit 0): true = Internal. -/
def Sc.clockIsInternal (sc : Sc) : Bool :=
  sc.bits &&& 1 = 1

/-- `set_transfer_requested_or_progress(false)`: clears bit 7. -/
def Sc.clearTransfer (sc : Sc) : Sc :=
  { bits := sc.bits &&& 0x7F }

/-- src/src/serial.rs (`Serial`); `audio`-style debug counters included;
the source names the third one panic_counter. -/
structure State where
  buf : Nat
  receive_buf : Option Nat
  send_buf : Option Nat
  tick_timer : Nat
  sc : Sc
  link_cable : Option LinkCable
  rev_count : Nat
  send_count : Nat
  debug_counter : Nat
deriving DecidableEq, Repr

/-- `Serial::new` (all other fields `Default`-zeroed). -/
def new (link_cable : Option LinkCable) : State :=
  { buf := 0, receive_buf := none, send_buf := none, tick_timer := 0,
    sc := { bits := 0 }, link_cable := link_cable,
    rev_count := 0, send_count := 0, debug_counter := 0 }

/-- `Serial::read`: $FF01 is the buffer, $FF02 the control byte; anything
else is `unreachable!`. -/
def read (s : State) (address : Nat) : Option Nat :=
  if address = 0xFF01 then some s.buf
  else if address = 0xFF02 then some s.sc.bits
  else none

/-- `Serial::write`: a $FF02 write that turns the transfer flag on latches
the send byte and sets `tick_timer = 128 * 8` (which no other code ever
reads). -/
def write (s : State) (address value : Nat) : Option State :=
  if address = 0xFF01 then some { s with buf := value }
  else if address = 0xFF02 then
    let prev_is_transfer := s.sc.transferFlag
    let sc : Sc := { bits := value }
    let s := { s with sc := sc }
    if sc.transferFlag ∧ prev_is_transfer = false then
      some { s with send_buf := some s.buf, tick_timer := 128 * 8 }
    else
      some s
  else none

/-- `Serial::tick`; the returned Bool is whether the Serial interrupt was
raised.  With no link cable (or no transfer in progress) it returns
immediately; `tick_timer` is never consulted. -/
def tick (s : State) : State × Bool :=
  if s.sc.transferFlag = false then (s, false)
  else
    match s.link_cable with
    | none => (s, false)
    | some link_cable =>
      if s.sc.clockIsInternal then
        let (link_cable, send_buf) :=
          match s.send_buf with
          | some send_val => (link_cable.send send_val, (none : Option Nat))
          | none => (link_cable, none)
        match link_cable.try_recv with
        | (some recv_val, link_cable) =>
            ({ s with link_cable := some link_cable, send_buf := send_buf,
                      buf := recv_val, sc := s.sc.clearTransfer,
                      send_count := s.send_count + 1,
                      debug_counter := s.debug_counter + 1 }, true)
        | (none, link_cable) =>
            ({ s with link_cable := some link_cable, send_buf := send_buf }, false)
      else
        let (recv_val, link_cable) := link_cable.try_recv
        match recv_val, s.send_buf with
        | some recv_val, some send_val =>
            ({ s with buf := recv_val, rev_count := s.rev_count + 1,
                      send_buf := none,
                      link_cable := some (link_cable.send send_val),
                      send_count := s.send_count + 1,
                      sc := s.sc.clearTransfer,
                      debug_counter := s.debug_counter + 1 }, true)
        | _, _ =>
            ({ s with link_cable := some link_cable }, false)

/-- The serial unit with no collaborator right after the $FF02 := $81
write that starts an internal-clock transfer. -/
def started : State :=
  match write (new none) 0xFF02 0x81 with
  | some s => s
  | none => new none

/-- A serial unit mid-transfer (internal clock, $FF02 = $81) whose
collaborator will answer the next try_recv with the byte $42. -/
def linked : State :=
  { new (some { recv_stream := [some 0x42], sent := [] }) with sc := { bits := 0x81 } }

end Serial

namespace Bus

/-- src/src/bus.rs (`Dma`). -/
structure Dma where
  upper_source_address : Nat
  counter : Nat
  enable : Bool
deriving DecidableEq, Repr

/-- src/src/bus.rs (`Hdma`). -/
structure Hdma where
  source_address : Nat
  destination_address : Nat
  length : Nat
  enable_gdma : Bool
  enable_hdma : Bool
  is_prev_hblank : Bool
deriving DecidableEq, Repr

/-- `Hdma::read`: $FF51-54 warn and return $FF; $FF55 reports
not-active in bit 7 and the length in the low bits; other addresses are
`unreachable!`. -/
def Hdma.read (h : Hdma) (address : Nat) : Option Nat :=
  if 0xFF51 ≤ address ∧ address ≤ 0xFF54 then some 0xFF
  else if address = 0xFF55 then
    some (((cond h.enable_hdma 0 1) <<< 7) ||| h.length)
  else none

/-- src/src/bus.rs (`Bus`). -/
structure State where
  wram : ByteVec
  wram_bank : Nat
  hram : Nat → Nat
  dma : Dma
  hdma : Hdma
  ff72 : Nat
  ff73 : Nat
  ff74 : Nat
  ff75 : Nat

/-- `Bus::new`. -/
def new (device_mode : DeviceMode) : State :=
  { wram := ByteVec.zeros (match device_mode with
      | DeviceMode.GameBoy => 0x2000
      | DeviceMode.GameBoyColor => 0x8000),
    wram_bank := 1, hram := fun _ => 0,
    dma := { upper_source_address := 0, counter := 0, enable := false },
    hdma := { source_address := 0, destination_address := 0, length := 0,
              enable_gdma := false, enable_hdma := false, is_prev_hblank := false },
    ff72 := 0, ff73 := 0, ff74 := 0, ff75 := 0 }

/-- The bus read context (the `Context` trait bound of `Bus::read`):
value oracles for each component's read and the config accessors.  The
components' internal state updates on read are not needed here - the
claims about the bus concern only the routing of the returned value. -/
structure Ctx where
  cartridge_read : Nat → Nat
  ppu_read : Nat → Nat
  joypad_read : Nat
  serial_read : Nat → Nat
  timer_read : Nat → Nat
  interrupt_flag : Nat
  apu_read : Nat → Nat
  device_mode : DeviceMode
  get_speed_switch : Nat
  interrupt_enable : Nat

/-- `Bus::read`, arm for arm in the order of the source match.  The final
catch-all arm logs the address and returns $00.  `none` models a panic
(WRAM index out of bounds). -/
def read (s : State) (ctx : Ctx) (address : Nat) : Option Nat :=
  if address ≤ 0x7FFF then some (ctx.cartridge_read address)
  else if address ≤ 0x9FFF then some (ctx.ppu_read address)
  else if address ≤ 0xBFFF then some (ctx.cartridge_read address)
  else if address ≤ 0xFDFF then
    let bank := address &&& 0x1000
    s.wram.read (((address &&& 0x0FFF) + bank * s.wram_bank) % 65536)
  else if address ≤ 0xFE9F then some (ctx.ppu_read address)
  else if address ≤ 0xFEFF then some 0xFF
  else if address = 0xFF00 then some ctx.joypad_read
  else if 0xFF01 ≤ address ∧ address ≤ 0xFF02 then some (ctx.serial_read address)
  else if 0xFF04 ≤ address ∧ address ≤ 0xFF07 then some (ctx.timer_read address)
  else if address = 0xFF0F then some (0xE0 ||| ctx.interrupt_flag)
  else if 0xFF10 ≤ address ∧ address ≤ 0xFF3F then some (ctx.apu_read address)
  else if 0xFF40 ≤ address ∧ address ≤ 0xFF45 then some (ctx.ppu_read address)
  else if address = 0xFF46 then some s.dma.upper_source_address
  else if 0xFF47 ≤ address ∧ address ≤ 0xFF4B then some (ctx.ppu_read address)
  else if address = 0xFF4C then some 0xFF
  else if address = 0xFF4D then
    some (if ctx.device_mode = DeviceMode.GameBoy then 0xFF else ctx.get_speed_switch)
  else if address = 0xFF4F then some (ctx.ppu_read address)
  else if address = 0xFF50 then some 0xFF
  else if 0xFF51 ≤ address ∧ address ≤ 0xFF55 then
    if ctx.device_mode = DeviceMode.GameBoy then some 0xFF
    else s.hdma.read address
  else if 0xFF68 ≤ address ∧ address ≤ 0xFF6B then some (ctx.ppu_read address)
  else if address = 0xFF70 then
    some (if ctx.device_mode = DeviceMode.GameBoyColor then 0xF8 ||| s.wram_bank else 0xFF)
  else if address = 0xFF72 then
    some (if ctx.device_mode = DeviceMode.GameBoy then 0xFF else s.ff72)
  else if address = 0xFF73 then
    some (if ctx.device_mode = DeviceMode.GameBoy then 0xFF else s.ff73)
  else if address = 0xFF74 then
    some (if ctx.device_mode = DeviceMode.GameBoy then 0xFF else s.ff74)
  else if address = 0xFF75 then
    some (if ctx.device_mode = DeviceMode.GameBoy then 0xFF else s.ff75)
  else if 0xFF76 ≤ address ∧ address ≤ 0xFF7F then some (ctx.apu_read address)
  else if 0xFF80 ≤ address ∧ address ≤ 0xFFFE then some (s.hram (address - 0xFF80))
  else if address = 0xFFFF then some ctx.interrupt_enable
  else some 0x00

/-- The set of 16-bit addresses that fall through to the catch-all arm of
`Bus::read`: routed to no component and no register. -/
def UnmappedRead (a : Nat) : Prop :=
  a = 0xFF03 ∨ (0xFF08 ≤ a ∧ a ≤ 0xFF0E) ∨ a = 0xFF4E ∨
    (0xFF56 ≤ a ∧ a ≤ 0xFF67) ∨ (0xFF6C ≤ a ∧ a ≤ 0xFF6F) ∨ a = 0xFF71

end Bus

namespace Ppu

/-- src/src/ppu.rs (`PpuMode`): two-bit field, default OamSearch. -/
inductive PpuMode where
  | HBlank
  | VBlank
  | OamSearch
  | DataTransfer
deriving DecidableEq, Repr

/-- The two-bit encoding of a PPU mode (HBlank 0, VBlank 1, OamSearch 2,
DataTransfer 3). -/
def PpuMode.bits : PpuMode → Nat
  | PpuMode.HBlank => 0
  | PpuMode.VBlank => 1
  | PpuMode.OamSearch => 2
  | PpuMode.DataTransfer => 3

/-- Decode a two-bit value into a PPU mode. -/
def PpuMode.ofBits (n : Nat) : PpuMode :=
  if n = 0 then PpuMode.HBlank
  else if n = 1 then PpuMode.VBlank
  else if n = 2 then PpuMode.OamSearch
  else PpuMode.DataTransfer

/-- src/src/ppu.rs (`Stat`, the $FF41 bitfield): ppu_mode in bits 0-1,
lyc_ly_coincidence bit 2, the four interrupt enables bits 3-6, bit 7
skipped (always 0). -/
structure Stat where
  ppu_mode : PpuMode
  lyc_ly_coincidence : Bool
  hblank_interrupt : Bool
  vblank_interrupt : Bool
  oam_interrupt : Bool
  lyc_ly_coincidence_interrupt : Bool
deriving DecidableEq, Repr

/-- `Stat::from(byte)`. -/
def Stat.ofByte (v : Nat) : Stat :=
  { ppu_mode := PpuMode.ofBits (v &&& 3),
    lyc_ly_coincidence := v.testBit 2,
    hblank_interrupt := v.testBit 3,
    vblank_interrupt := v.testBit 4,
    oam_interrupt := v.testBit 5,
    lyc_ly_coincidence_interrupt := v.testBit 6 }

/-- The STAT byte packed back from the fields (`self.stat.into()`). -/
def Stat.toByte (s : Stat) : Nat :=
  s.ppu_mode.bits ||| ((cond s.lyc_ly_coincidence 1 0) <<< 2) |||
    ((cond s.hblank_interrupt 1 0) <<< 3) |||
    ((cond s.vblank_interrupt 1 0) <<< 4) |||
    ((cond s.oam_interrupt 1 0) <<< 5) |||
    ((cond s.lyc_ly_coincidence_interrupt 1 0) <<< 6)

/-- src/src/ppu.rs (`ColorPalette`): 64 palette bytes, the index register
and the auto-increment flag.  The index is kept below 64 by the write
masks, so the Rust vector index cannot go out of bounds and the contents
are modelled as a total function. -/
structure ColorPalette where
  color_palette : Nat → Nat
  color_palette_index : Nat
  enable_palette_index_auto_increment : Bool

/-- `ColorPalette::default()`. -/
def ColorPalette.default : ColorPalette :=
  { color_palette := fun _ => 0, color_palette_index := 0,
    enable_palette_index_auto_increment := false }

/-- `ColorPalette::read` (offset 0 = index register, 1 = data). -/
def ColorPalette.read (c : ColorPalette) (offset : Nat) : Option Nat :=
  if offset = 0 then
    some (((cond c.enable_palette_index_auto_increment 1 0) <<< 7) ||| c.color_palette_index)
  else if offset = 1 then
    some (c.color_palette c.color_palette_index)
  else none

/-- `ColorPalette::write`. -/
def ColorPalette.write (c : ColorPalette) (offset value : Nat) : Option ColorPalette :=
  if offset = 0 then
    some { c with color_palette_index := value &&& 0x3F,
                  enable_palette_index_auto_increment := value &&& 0x80 = 0x80 }
  else if offset = 1 then
    let c := { c with color_palette := fun j =>
                 if j = c.color_palette_index then value else c.color_palette j }
    if c.enable_palette_index_auto_increment then
      some { c with color_palette_index := (c.color_palette_index + 1) % 64 }
    else some c
  else none

/-- src/src/ppu.rs (`Ppu`), register-level state.  The pixel outputs
(frame_buffer, line_info, scan_line_obj_x) are write-only sinks of the
renderer: no register or claim-relevant field ever reads them, so they
are omitted; the one register field the renderer mutates,
window_line_counter, is modelled in `render_scanline_regs`. -/
structure State where
  vram : ByteVec
  vram_bank : Nat
  oam : ByteVec
  lx : Nat
  mode : PpuMode
  prev_interrupt : Bool
  lcdc : Nat
  stat : Stat
  scy : Nat
  scx : Nat
  ly : Nat
  lyc : Nat
  bg_palette : Nat
  obj_palette0 : Nat
  obj_palette1 : Nat
  window_y : Nat
  window_x : Nat
  window_line_counter : Nat
  bg_color_palette : ColorPalette
  obj_color_palette : ColorPalette
  frame : Nat

/-- `Lcdc` accessor: lcd_enable is bit 7. -/
def lcdEnable (lcdc : Nat) : Bool := lcdc.testBit 7

/-- `Lcdc` accessor: window_enable is bit 5. -/
def windowEnable (lcdc : Nat) : Bool := lcdc.testBit 5

/-- `Ppu::new` plus the derived `Default`: mode defaults to OamSearch,
everything else zero; VRAM is 8 KiB on DMG, 16 KiB on CGB. -/
def new (device_mode : DeviceMode) : State :=
  { vram := ByteVec.zeros (match device_mode with
      | DeviceMode.GameBoy => 0x2000
      | DeviceMode.GameBoyColor => 0x4000),
    vram_bank := 0, oam := ByteVec.zeros 0xA0,
    lx := 0, mode := PpuMode.OamSearch, prev_interrupt := false,
    lcdc := 0, stat := Stat.ofByte 0, scy := 0, scx := 0, ly := 0, lyc := 0,
    bg_palette := 0, obj_palette0 := 0, obj_palette1 := 0,
    window_y := 0, window_x := 0, window_line_counter := 0,
    bg_color_palette := ColorPalette.default,
    obj_color_palette := ColorPalette.default, frame := 0 }

/-- `Ppu::ppu_mode`. -/
def ppu_mode (p : State) : PpuMode := p.mode

/-- `Ppu::read`.  Reading $FF41 first stores LY==LYC into the stat
coincidence bit, then returns the packed byte; every other arm leaves the
state unchanged.  Unlisted addresses are `unreachable!` (none). -/
def read (p : State) (dm : DeviceMode) (address : Nat) : State × Option Nat :=
  if 0x8000 ≤ address ∧ address ≤ 0x9FFF then
    (p, p.vram.read (p.vram_bank * 0x2000 + (address - 0x8000)))
  else if 0xFE00 ≤ address ∧ address ≤ 0xFE9F then
    (p, p.oam.read (address - 0xFE00))
  else if address = 0xFF40 then (p, some p.lcdc)
  else if address = 0xFF41 then
    let stat := { p.stat with lyc_ly_coincidence := p.ly = p.lyc }
    ({ p with stat := stat }, some stat.toByte)
  else if address = 0xFF42 then (p, some p.scy)
  else if address = 0xFF43 then (p, some p.scx)
  else if address = 0xFF44 then (p, some p.ly)
  else if address = 0xFF45 then (p, some p.lyc)
  else if address = 0xFF47 then (p, some p.bg_palette)
  else if address = 0xFF48 then (p, some p.obj_palette0)
  else if address = 0xFF49 then (p, some p.obj_palette1)
  else if address = 0xFF4A then (p, some p.window_y)
  else if address = 0xFF4B then (p, some p.window_x)
  else if address = 0xFF4F then
    (p, some (if dm = DeviceMode.GameBoyColor then 0xFE ||| p.vram_bank else 0xFF))
  else if address = 0xFF68 ∨ address = 0xFF69 then
    (p, if dm = DeviceMode.GameBoyColor then p.bg_color_palette.read (address - 0xFF68)
        else some 0xFF)
  else if address = 0xFF6A ∨ address = 0xFF6B then
    (p, if dm = DeviceMode.GameBoyColor then p.obj_color_palette.read (address - 0xFF6A)
        else some 0xFF)
  else (p, none)

/-- `Ppu::write`.  There is no $FF44 arm: LY writes (and any other
unlisted address) fall to the logging default and change nothing. -/
def write (p : State) (dm : DeviceMode) (address value : Nat) : Option State :=
  if 0x8000 ≤ address ∧ address ≤ 0x9FFF then
    match p.vram.write (p.vram_bank * 0x2000 + (address - 0x8000)) value with
    | some vram => some { p with vram := vram }
    | none => none
  else if 0xFE00 ≤ address ∧ address ≤ 0xFE9F then
    match p.oam.write (address - 0xFE00) value with
    | some oam => some { p with oam := oam }
    | none => none
  else if address = 0xFF40 then
    let p :=
      if lcdEnable p.lcdc = false ∧ lcdEnable value then
        { p with lx := 0, ly := 0, frame := p.frame + 1 }
      else p
    some { p with lcdc := value }
  else if address = 0xFF41 then
    some { p with stat := Stat.ofByte (value &&& 0x7C) }
  else if address = 0xFF42 then some { p with scy := value }
  else if address = 0xFF43 then some { p with scx := value }
  else if address = 0xFF45 then some { p with lyc := value }
  else if address = 0xFF47 then some { p with bg_palette := value }
  else if address = 0xFF48 then some { p with obj_palette0 := value }
  else if address = 0xFF49 then some { p with obj_palette1 := value }
  else if address = 0xFF4A then some { p with window_y := value }
  else if address = 0xFF4B then some { p with window_x := value }
  else if address = 0xFF4F then
    some (if dm = DeviceMode.GameBoyColor then { p with vram_bank := value &&& 0x01 } else p)
  else if address = 0xFF68 ∨ address = 0xFF69 then
    match p.bg_color_palette.write (address - 0xFF68) value with
    | some c => some { p with bg_color_palette := c }
    | none => none
  else if address = 0xFF6A ∨ address = 0xFF6B then
    match p.obj_color_palette.write (address - 0xFF6A) value with
    | some c => some { p with obj_color_palette := c }
    | none => none
  else some p

/-- Register-visible effect of `Ppu::render_scanline`: the only register
field the renderer mutates is window_line_counter - render_background
resets it when LY equals WY and increments it when the window contributed
to the line (window enabled, WY ≤ LY, and WX ≤ x+7 for some column
x < 160, i.e. WX ≤ 166).  The per-pixel colour output goes to the omitted
frame_buffer/line_info sinks. -/
def render_scanline_regs (p : State) : State :=
  let p := if p.ly = p.window_y then { p with window_line_counter := 0 } else p
  let increment := windowEnable p.lcdc ∧ p.window_y ≤ p.ly ∧ p.window_x ≤ 166
  if increment then { p with window_line_counter := (p.window_line_counter + 1) % 256 }
  else p

/-- `Ppu::update_lx_ly`. -/
def update_lx_ly (p : State) : State :=
  let lx := p.lx + 1
  if lx = 456 then
    let ly := (p.ly + 1) % 256
    if ly = 154 then { p with lx := 0, ly := 0, frame := p.frame + 1 }
    else { p with lx := 0, ly := ly }
  else { p with lx := lx }

/-- `Ppu::set_mode`: on a mode change entering VBlank raises the VBlank
interrupt and entering DataTransfer renders the scanline. -/
def set_mode (p : State) (mode : PpuMode) (iflags : IntFlags) : State × IntFlags :=
  let (p, iflags) :=
    if p.mode ≠ mode then
      if mode = PpuMode.VBlank then (p, { iflags with vblank := true })
      else if mode = PpuMode.DataTransfer then (render_scanline_regs p, iflags)
      else (p, iflags)
    else (p, iflags)
  ({ p with mode := mode }, iflags)

/-- `Ppu::update_mode`: mode from LY and the LX dot counter. -/
def update_mode (p : State) (iflags : IntFlags) : State × IntFlags :=
  if p.ly < 144 then
    if p.lx < 80 then set_mode p PpuMode.OamSearch iflags
    else if p.lx < 252 then set_mode p PpuMode.DataTransfer iflags
    else set_mode p PpuMode.HBlank iflags
  else set_mode p PpuMode.VBlank iflags

/-- `Ppu::update_interrupt`: the STAT interrupt line is the OR of the
mode enables and the LYC==LY enable; the LCD interrupt is raised on its
rising edge. -/
def update_interrupt (p : State) (iflags : IntFlags) : State × IntFlags :=
  let cur_interrupt :=
    match p.mode with
    | PpuMode.HBlank => p.stat.hblank_interrupt
    | PpuMode.VBlank => p.stat.vblank_interrupt
    | PpuMode.OamSearch => p.stat.oam_interrupt
    | PpuMode.DataTransfer => false
  let cur_interrupt := cur_interrupt || (p.stat.lyc_ly_coincidence_interrupt && (p.ly = p.lyc))
  let iflags :=
    if p.prev_interrupt = false ∧ cur_interrupt then { iflags with lcd := true }
    else iflags
  ({ p with prev_interrupt := cur_interrupt }, iflags)

/-- `Ppu::tick_pixel`: advance the dot counter; with the LCD disabled the
mode is forced to HBlank; otherwise update the mode and the STAT
interrupt line. -/
def tick_pixel (p : State) (iflags : IntFlags) : State × IntFlags :=
  let p := update_lx_ly p
  if lcdEnable p.lcdc = false then
    ({ p with mode := PpuMode.HBlank }, iflags)
  else
    let (p, iflags) := update_mode p iflags
    update_interrupt p iflags

/-- `Ppu::tick`: 4 pixel dots per machine cycle at normal speed, 2 in
double speed. -/
def tick (p : State) (speed : Speed) (iflags : IntFlags) : State × IntFlags :=
  let tick_count := match speed with
    | Speed.Normal => 4
    | Speed.Double => 2
  applyN (fun x => tick_pixel x.1 x.2) tick_count (p, iflags)

/-- The PPU states reachable from construction in a device mode through
any sequence of register reads, register writes and ticks (the three
entry points the rest of the emulator calls). -/
inductive Reach (dm : DeviceMode) : State → Prop where
  | init : Reach dm (new dm)
  | read (a : Nat) {p : State} : Reach dm p → Reach dm (Ppu.read p dm a).1
  | write (a v : Nat) {p p2 : State} :
      Reach dm p → Ppu.write p dm a v = some p2 → Reach dm p2
  | tick (sp : Speed) (iflags : IntFlags) {p : State} :
      Reach dm p → Reach dm (Ppu.tick p sp iflags).1

end Ppu

namespace Apu

/-- src/src/apu.rs (`EnvelopeDirection`). -/
inductive EnvelopeDirection where
  | Decrease
  | Increase
deriving DecidableEq, Repr

/-- `EnvelopeDirection::from(u8)`; the argument is always `(v >> 3) & 1`,
so only 0 and 1 occur and the unreachable arm cannot fire. -/
def EnvelopeDirection.ofBit (n : Nat) : EnvelopeDirection :=
  if n = 0 then EnvelopeDirection.Decrease else EnvelopeDirection.Increase

/-- src/src/apu.rs (`Pulse`). -/
structure Pulse where
  is_on : Bool
  sweep : Nat
  length_timer : Nat
  wave_duty : Nat
  envelope_period : Nat
  envelope_direction : EnvelopeDirection
  initial_volume : Nat
  frequency : Nat
  length_enable : Bool
  current_volume : Nat
  current_frequency : Nat
  frequency_timer : Nat
  envelope_timer : Nat
  sweep_timer : Nat
  sweep_enable : Bool
  phase : Nat
deriving DecidableEq, Repr

/-- `Pulse::new()` (`Default`-zeroed). -/
def Pulse.new : Pulse :=
  { is_on := false, sweep := 0, length_timer := 0, wave_duty := 0,
    envelope_period := 0, envelope_direction := EnvelopeDirection.Decrease,
    initial_volume := 0, frequency := 0, length_enable := false,
    current_volume := 0, current_frequency := 0, frequency_timer := 0,
    envelope_timer := 0, sweep_timer := 0, sweep_enable := false, phase := 0 }

/-- `Sweep` bitfield accessor: shift, bits 0-2. -/
def Pulse.sweepShift (p : Pulse) : Nat := p.sweep &&& 7

/-- `Sweep` bitfield accessor: direction, bit 3 (set = Subtraction). -/
def Pulse.sweepIsSub (p : Pulse) : Bool := p.sweep.testBit 3

/-- `Sweep` bitfield accessor: period, bits 4-6. -/
def Pulse.sweepPeriod (p : Pulse) : Nat := (p.sweep >>> 4) &&& 7

/-- `Pulse::new_frequency`: f ± (f >> shift) on the shadow frequency. -/
def Pulse.new_frequency (p : Pulse) : Nat :=
  if p.sweepIsSub then p.current_frequency - (p.current_frequency >>> p.sweepShift)
  else p.current_frequency + (p.current_frequency >>> p.sweepShift)

/-- `Pulse::trigger`. -/
def Pulse.trigger (p : Pulse) : Pulse :=
  let p := { p with is_on :=
    p.initial_volume ≠ 0 ∨ p.envelope_direction = EnvelopeDirection.Increase }
  let p := if p.length_timer = 0 then { p with length_timer := 64 } else p
  let p := { p with
    frequency_timer := (2048 - p.frequency) * 4,
    envelope_timer := if p.envelope_period = 0 then 8 else p.envelope_period,
    current_volume := p.initial_volume,
    current_frequency := p.frequency }
  let p := { p with
    sweep_timer := if p.sweepPeriod = 0 then 8 else p.sweepPeriod,
    sweep_enable := p.sweepPeriod ≠ 0 ∨ p.sweepShift ≠ 0 }
  if p.sweepShift ≠ 0 ∧ p.new_frequency > 2047 then { p with is_on := false } else p

/-- `Pulse::write`; the caller passes only offsets 0-4, so the
unreachable arm cannot fire and is modelled as a no-op. -/
def Pulse.write (p : Pulse) (offset value : Nat) : Pulse :=
  if offset = 0 then { p with sweep := value }
  else if offset = 1 then
    { p with wave_duty := value >>> 6, length_timer := 64 - (value &&& 0x3F) }
  else if offset = 2 then
    { p with envelope_period := value &&& 0x07,
             envelope_direction := EnvelopeDirection.ofBit ((value >>> 3) &&& 1),
             initial_volume := value >>> 4 }
  else if offset = 3 then
    { p with frequency := (p.frequency &&& 0x0700) ||| value }
  else if offset = 4 then
    let p := { p with frequency := (p.frequency &&& 0x00FF) ||| ((value &&& 0x07) <<< 8),
                      length_enable := (value >>> 6) &&& 1 = 1 }
    if (value >>> 7) &&& 1 = 1 then p.trigger else p
  else p

/-- `Pulse::length_tick`. -/
def Pulse.length_tick (p : Pulse) : Pulse :=
  let length_timer := p.length_timer - 1
  if length_timer = 0 then { p with length_timer := length_timer, is_on := false }
  else { p with length_timer := length_timer }

/-- `Pulse::envelope_tick`. -/
def Pulse.envelope_tick (p : Pulse) : Pulse :=
  if p.envelope_timer > 0 then
    let envelope_timer := p.envelope_timer - 1
    if envelope_timer = 0 ∧ p.envelope_period ≠ 0 then
      { p with envelope_timer := p.envelope_period,
               current_volume := match p.envelope_direction with
                 | EnvelopeDirection.Decrease => p.current_volume - 1
                 | EnvelopeDirection.Increase => min (p.current_volume + 1) 15 }
    else { p with envelope_timer := envelope_timer }
  else p

/-- `Pulse::sweep_tick`. -/
def Pulse.sweep_tick (p : Pulse) : Pulse :=
  if p.sweep_timer > 0 then
    let sweep_timer := p.sweep_timer - 1
    if sweep_timer = 0 ∧ p.sweepPeriod ≠ 0 then
      let p := { p with sweep_timer := p.sweepPeriod }
      let nf := p.new_frequency
      let p :=
        if nf ≤ 2047 ∧ p.sweepShift ≠ 0 then
          { p with current_frequency := nf, frequency := nf }
        else p
      if p.new_frequency > 2047 then { p with is_on := false } else p
    else { p with sweep_timer := sweep_timer }
  else p

/-- `Pulse::tick`. -/
def Pulse.tick (p : Pulse) (should_length should_volume should_sweep : Bool) : Pulse :=
  let p :=
    let frequency_timer := p.frequency_timer - 1
    if frequency_timer = 0 then
      { p with frequency_timer := (2048 - p.frequency) * 4, phase := (p.phase + 1) % 8 }
    else { p with frequency_timer := frequency_timer }
  let p := if should_length ∧ p.length_enable then p.length_tick else p
  let p := if should_volume then p.envelope_tick else p
  if should_sweep then p.sweep_tick else p

/-- src/src/apu.rs (`Wave`); the 16-byte wave RAM is indexed only below
16, so it is modelled as a total function. -/
structure Wave where
  is_on : Bool
  dac_enable : Bool
  length_timer : Nat
  output_level : Nat
  frequency : Nat
  length_enable : Bool
  ram : Nat → Nat
  frequency_timer : Nat
  ram_index : Nat
  current_sample : Nat

/-- `Wave::new()`. -/
def Wave.new : Wave :=
  { is_on := false, dac_enable := false, length_timer := 0, output_level := 0,
    frequency := 0, length_enable := false, ram := fun _ => 0,
    frequency_timer := 0, ram_index := 0, current_sample := 0 }

/-- `Wave::trigger`. -/
def Wave.trigger (w : Wave) : Wave :=
  let w := { w with is_on := w.dac_enable }
  let w := if w.length_timer = 0 then { w with length_timer := 256 } else w
  { w with frequency_timer := (2048 - w.frequency) * 2, ram_index := 0 }

/-- `Wave::write` ($FF1A-$FF1E; other addresses are unreachable from the
APU dispatch and modelled as a no-op). -/
def Wave.write (w : Wave) (address value : Nat) : Wave :=
  if address = 0xFF1A then { w with dac_enable := (value >>> 7) &&& 1 = 1 }
  else if address = 0xFF1B then { w with length_timer := 256 - value }
  else if address = 0xFF1C then { w with output_level := (value >>> 5) &&& 3 }
  else if address = 0xFF1D then { w with frequency := (w.frequency &&& 0x0700) ||| value }
  else if address = 0xFF1E then
    let w := { w with frequency := (w.frequency &&& 0x00FF) ||| ((value &&& 0x07) <<< 8),
                      length_enable := (value >>> 6) &&& 1 = 1 }
    if (value >>> 7) &&& 1 = 1 then w.trigger else w
  else w

/-- `Wave::length_tick`. -/
def Wave.length_tick (w : Wave) : Wave :=
  let length_timer := w.length_timer - 1
  if length_timer = 0 then { w with length_timer := length_timer, is_on := false }
  else { w with length_timer := length_timer }

/-- `Wave::tick`. -/
def Wave.tick (w : Wave) (should_length_tick : Bool) : Wave :=
  let w :=
    let frequency_timer := w.frequency_timer - 1
    if frequency_timer = 0 then
      let w := { w with frequency_timer := (2048 - w.frequency) * 2,
                        ram_index := (w.ram_index + 1) % 32 }
      if w.ram_index % 2 = 0 then
        { w with current_sample := w.ram (w.ram_index / 2) >>> 4 }
      else
        { w with current_sample := w.ram (w.ram_index / 2) &&& 0x0F }
    else { w with frequency_timer := frequency_timer }
  if w.length_enable ∧ should_length_tick then w.length_tick else w

/-- The `DIVISOR` table (index is always `divisor_code & 7` below 8). -/
def divisorTable (code : Nat) : Nat :=
  if code = 0 then 8
  else if code = 1 then 16
  else if code = 2 then 32
  else if code = 3 then 48
  else if code = 4 then 64
  else if code = 5 then 80
  else if code = 6 then 96
  else 112

/-- src/src/apu.rs (`Noise`). -/
structure Noise where
  is_on : Bool
  length_timer : Nat
  initial_volume : Nat
  envelope_period : Nat
  envelope_timer : Nat
  envelope_direction : EnvelopeDirection
  clock_shift : Nat
  is_lfsr_width_mode : Bool
  lsfr : Nat
  divisor_code : Nat
  length_enable : Bool
  current_volume : Nat
  frequency_timer : Nat
deriving DecidableEq, Repr

/-- `Noise::new()`: only the LFSR starts non-zero. -/
def Noise.new : Noise :=
  { is_on := false, length_timer := 0, initial_volume := 0, envelope_period := 0,
    envelope_timer := 0, envelope_direction := EnvelopeDirection.Decrease,
    clock_shift := 0, is_lfsr_width_mode := false, lsfr := 0x7FFF,
    divisor_code := 0, length_enable := false, current_volume := 0,
    frequency_timer := 0 }

/-- `DIVISOR[code] << (clock_shift + 1)` on a u16; Rust release masks an
overlong shift amount and wraps the value. -/
def Noise.freqReload (n : Noise) : Nat :=
  (divisorTable n.divisor_code <<< ((n.clock_shift + 1) % 16)) % 65536

/-- `Noise::trigger`. -/
def Noise.trigger (n : Noise) : Noise :=
  let n := { n with is_on :=
    n.initial_volume ≠ 0 ∨ n.envelope_direction = EnvelopeDirection.Increase }
  let n := if n.length_timer = 0 then { n with length_timer := 64 } else n
  { n with envelope_timer := if n.envelope_period = 0 then 8 else n.envelope_period,
           current_volume := n.initial_volume,
           lsfr := 0x7FFF,
           frequency_timer := n.freqReload }

/-- `Noise::write` ($FF20-$FF23). -/
def Noise.write (n : Noise) (address value : Nat) : Noise :=
  if address = 0xFF20 then { n with length_timer := 64 - (value &&& 0x3F) }
  else if address = 0xFF21 then
    { n with envelope_period := value &&& 0x07,
             envelope_direction := EnvelopeDirection.ofBit ((value >>> 3) &&& 1),
             initial_volume := value >>> 4 }
  else if address = 0xFF22 then
    { n with divisor_code := value &&& 0x07,
             is_lfsr_width_mode := (value >>> 3) &&& 1 = 1,
             clock_shift := value >>> 4 }
  else if address = 0xFF23 then
    let n := { n with length_enable := (value >>> 6) &&& 1 = 1 }
    if (value >>> 7) &&& 1 = 1 then n.trigger else n
  else n

/-- `Noise::length_tick`. -/
def Noise.length_tick (n : Noise) : Noise :=
  let length_timer := n.length_timer - 1
  if length_timer = 0 then { n with length_timer := length_timer, is_on := false }
  else { n with length_timer := length_timer }

/-- `Noise::envelope_tick`. -/
def Noise.envelope_tick (n : Noise) : Noise :=
  if n.envelope_timer > 0 then
    let envelope_timer := n.envelope_timer - 1
    if envelope_timer = 0 ∧ n.envelope_period ≠ 0 then
      { n with envelope_timer := n.envelope_period,
               current_volume := match n.envelope_direction with
                 | EnvelopeDirection.Decrease => n.current_volume - 1
                 | EnvelopeDirection.Increase => min (n.current_volume + 1) 15 }
    else { n with envelope_timer := envelope_timer }
  else n

/-- `Noise::tick`. -/
def Noise.tick (n : Noise) (should_length_tick should_envelope_tick : Bool) : Noise :=
  let n :=
    let frequency_timer := n.frequency_timer - 1
    if frequency_timer = 0 then
      let n := { n with frequency_timer := n.freqReload }
      let feedback := (n.lsfr &&& 1) ^^^ ((n.lsfr >>> 1) &&& 1)
      let n := { n with lsfr := (n.lsfr >>> 1) ||| (feedback <<< 14) }
      if n.is_lfsr_width_mode then
        { n with lsfr := (n.lsfr &&& 0xFFBF) ||| (feedback <<< 6) }
      else n
    else { n with frequency_timer := frequency_timer }
  let n := if should_length_tick ∧ n.length_enable then n.length_tick else n
  if should_envelope_tick then n.envelope_tick else n

/-- src/src/apu.rs (`FrameSequencer`). -/
structure FrameSequencer where
  counter : Nat
  step : Nat
deriving DecidableEq, Repr

/-- `FrameSequencer::tick`: advance once per 8192 T-cycles through 8
steps; (length, volume, sweep) tick flags. -/
def FrameSequencer.tick (fs : FrameSequencer) : FrameSequencer × (Bool × Bool × Bool) :=
  let counter := fs.counter + 1
  if counter ≥ 8192 then
    let step := (fs.step + 1) % 8
    ({ counter := 0, step := step },
     (step % 2 = 0, step = 7, step = 2 ∨ step = 6))
  else
    ({ fs with counter := counter }, (false, false, false))

/-- src/src/apu.rs (`Apu`), register-level state; the audio_buffer is an
output sink appended by the mixer and read by nobody inside the core, so
it (and the mixer's sample value) is omitted; its push cadence field
sample_counter is kept. -/
structure State where
  is_on : Bool
  pulse0 : Pulse
  pulse1 : Pulse
  wave : Wave
  noise : Noise
  master_volume : Nat
  panning : Nat → Nat → Bool
  frame_sequencer : FrameSequencer
  sample_counter : Nat

/-- `Apu::new()`. -/
def new : State :=
  { is_on := false, pulse0 := Pulse.new, pulse1 := Pulse.new,
    wave := Wave.new, noise := Noise.new, master_volume := 0,
    panning := fun _ _ => false, frame_sequencer := { counter := 0, step := 0 },
    sample_counter := 0 }

/-- `Apu::write`: dispatch to the channels and the master registers; the
value comes from the bus as a u8.  Unlisted addresses only log. -/
def write (s : State) (address value : Nat) : State :=
  let value := value % 256
  if 0xFF10 ≤ address ∧ address ≤ 0xFF14 then
    { s with pulse0 := s.pulse0.write (address - 0xFF10) value }
  else if 0xFF16 ≤ address ∧ address ≤ 0xFF19 then
    { s with pulse1 := s.pulse1.write (address - 0xFF15) value }
  else if 0xFF1A ≤ address ∧ address ≤ 0xFF1E then
    { s with wave := s.wave.write address value }
  else if 0xFF20 ≤ address ∧ address ≤ 0xFF23 then
    { s with noise := s.noise.write address value }
  else if address = 0xFF24 then { s with master_volume := value }
  else if address = 0xFF25 then
    { s with panning := fun i j => (value >>> (i * 4 + j)) &&& 1 = 1 }
  else if address = 0xFF26 then { s with is_on := (value >>> 7) &&& 1 = 1 }
  else if 0xFF30 ≤ address ∧ address ≤ 0xFF3F then
    { s with wave := { s.wave with ram := fun j =>
        if j = address - 0xFF30 then value else s.wave.ram j } }
  else s

/-- `Apu::tick_` (one T-cycle): when the master enable is on the frame
sequencer advances and every channel ticks; the sample cadence counter
always advances (the appended sample itself goes to the omitted buffer). -/
def tickT (s : State) : State :=
  let s :=
    if s.is_on then
      let (fs, flags) := s.frame_sequencer.tick
      let (should_length, should_volume, should_sweep) := flags
      { s with frame_sequencer := fs,
               pulse0 := s.pulse0.tick should_length should_volume should_sweep,
               pulse1 := s.pulse1.tick should_length should_volume false,
               wave := s.wave.tick should_length,
               noise := s.noise.tick should_length should_volume }
    else s
  let sample_counter := s.sample_counter + 800
  if sample_counter ≥ 70224 then { s with sample_counter := sample_counter - 70224 }
  else { s with sample_counter := sample_counter }

/-- `Apu::tick`: 4 T-cycles per machine cycle at normal speed, 2 in
double speed. -/
def tick (s : State) (speed : Speed) : State :=
  let tick_count := match speed with
    | Speed.Normal => 4
    | Speed.Double => 2
  applyN tickT tick_count s

/-- The DAC-alive condition for an envelope channel as the claim words
it: initial volume above zero or envelope direction increasing. -/
def Pulse.dacCond (p : Pulse) : Prop :=
  0 < p.initial_volume ∨ p.envelope_direction = EnvelopeDirection.Increase

/-- The DAC-alive condition for the noise channel. -/
def Noise.dacCond (n : Noise) : Prop :=
  0 < n.initial_volume ∨ n.envelope_direction = EnvelopeDirection.Increase

/-- Length-invariant of a pulse channel: on implies unexpired length. -/
def Pulse.inv (p : Pulse) : Prop := p.is_on = true → p.length_timer ≠ 0

/-- Length-invariant of the wave channel. -/
def Wave.inv (w : Wave) : Prop := w.is_on = true → w.length_timer ≠ 0

/-- Length-invariant of the noise channel. -/
def Noise.inv (n : Noise) : Prop := n.is_on = true → n.length_timer ≠ 0

/-- The invariant claimed for the APU: every switched-on channel has its
DAC enabled and its length timer unexpired. -/
def ClaimInv (s : State) : Prop :=
  (s.pulse0.is_on = true → s.pulse0.dacCond ∧ s.pulse0.length_timer ≠ 0) ∧
  (s.pulse1.is_on = true → s.pulse1.dacCond ∧ s.pulse1.length_timer ≠ 0) ∧
  (s.wave.is_on = true → s.wave.dac_enable = true ∧ s.wave.length_timer ≠ 0) ∧
  (s.noise.is_on = true → s.noise.dacCond ∧ s.noise.length_timer ≠ 0)

instance (s : State) : Decidable (ClaimInv s) := by
  unfold ClaimInv Pulse.dacCond Noise.dacCond
  infer_instance

/-- The length half of the claimed invariant: every switched-on channel
has an unexpired length timer. -/
def LenInv (s : State) : Prop :=
  Pulse.inv s.pulse0 ∧ Pulse.inv s.pulse1 ∧ Wave.inv s.wave ∧ Noise.inv s.noise

instance (s : State) : Decidable (LenInv s) := by
  unfold LenInv Pulse.inv Wave.inv Noise.inv
  infer_instance

/-- APU state after NR12 := $F0 (full volume) and NR14 := $80 (trigger
pulse 1): the channel is on with DAC alive and length timer 64. -/
def triggeredPulse1 : State :=
  write (write new 0xFF12 0xF0) 0xFF14 0x80

end Apu

/-- A concrete 32 KiB all-zero ROM image (the smallest header ROM size),
with no external RAM: the ROM-only failing input of the totality claim. -/
def rom32k : Rom :=
  { data := ByteVec.zeros 0x8000, romSize := 0x8000, ramSize := 0, haveRam := false }

/-- A concrete 1 MiB all-zero ROM image with 32 KiB of RAM, an MBC1
cartridge of the smallest size the bank-33 claim covers. -/
def rom1M : Rom :=
  { data := ByteVec.zeros 0x100000, romSize := 0x100000, ramSize := 0x8000, haveRam := true }

/-- A concrete DMG bus state. -/
def bus0 : Bus.State := Bus.new DeviceMode.GameBoy

/-- A concrete bus read context with constant component oracles. -/
def ctx0 : Bus.Ctx :=
  { cartridge_read := fun _ => 0, ppu_read := fun _ => 0, joypad_read := 0,
    serial_read := fun _ => 0, timer_read := fun _ => 0, interrupt_flag := 0,
    apu_read := fun _ => 0, device_mode := DeviceMode.GameBoy,
    get_speed_switch := 0, interrupt_enable := 0 }

/-!
Theorems settling the claims.
-/

/-- C1: the totality claim fails on the code.  A read of $A200 on an MBC2
cartridge hits the `unreachable!` arm of `Mbc2::read` (a panic, `none`),
and a read of $A000 on a ROM-only cartridge with a 32 KiB ROM indexes the
ROM vector out of bounds (a panic); both reads are reachable because
`Bus::read` routes every $A000-BFFF access to the cartridge. -/
theorem mbc2_and_rom_only_reads_panic :
    Mbc2.read (Mbc2.new rom32k none) 0xA200 = none ∧
    RomOnly.read (RomOnly.new rom32k) 0xA000 = none ∧
    (∀ ctx : Bus.Ctx, Bus.read bus0 ctx 0xA200 = some (ctx.cartridge_read 0xA200)) :=
  ⟨rfl, rfl, fun _ => rfl⟩

/-- C2: the joypad edge claim fails on the code.  `Joypad::set_key`
computes `changed & !cur`, which selects newly RELEASED keys: pressing
Right from the idle state (register bit 0 transitions high to low) does
not raise the Joypad interrupt, while releasing it again does. -/
theorem joypad_interrupt_on_release_not_press :
    ((Joypad.set_key Joypad.new IntFlags.new 0x01).2.joypad = false) ∧
    ((Joypad.set_key { Joypad.new with key_state := 0x01 } IntFlags.new 0x00).2.joypad = true) := by
  decide

set_option maxRecDepth 20000 in
/-- C3: the DIV claim fails on the code.  One `Timer::tick` happens per
machine cycle, `div` already increments only once per 64 ticks (the DIV
rate), yet the $FF04 read returns `div >> 8`: after 64 NOPs from reset the
read yields 0 (the claim expects 1) and after 128 NOPs still 0 (the claim
expects 2); the write-resets-to-zero part does hold. -/
theorem div_reads_zero_after_64_nops :
    Timer.read (Timer.afterCycles 64) 0xFF04 = some 0 ∧
    (Timer.afterCycles 64).div = 1 ∧
    Timer.read (Timer.afterCycles 128) 0xFF04 = some 0 ∧
    (Timer.afterCycles 128).div = 2 ∧
    (Timer.write (Timer.afterCycles 64) 0xFF04 0xAB).map (fun t => Timer.read t 0xFF04) =
      some (some 0) := by
  decide

/-- C5: the post-boot seeding claim fails on the code.
`Registers::default()` is the only register seeding, takes no device
mode, and sets F to $00 (not $B0) with A fixed at $01 (never $11); its
own comment says it is meant to be the DMG post-boot state. -/
theorem reset_registers_f_is_zero :
    Cpu.new.registers.a = 0x01 ∧
    Cpu.new.registers.f.toByte = 0x00 ∧
    Cpu.Registers.default.f.toByte ≠ 0xB0 := by
  decide

/-- C6 counterexample: with the speed switch armed (bit 0 of $FF4D
written as 1), executing STOP leaves the current speed at Normal - it is
not toggled to Double - and the CPU is halted, exactly as in the
unarmed case. -/
theorem stop_with_armed_switch_keeps_normal_speed :
    (Config.set_speed_switch (Config.new DeviceMode.GameBoyColor) 1).speed_switch.armed = true ∧
    Config.current_speed (stepStop Cpu.new (Config.set_speed_switch (Config.new DeviceMode.GameBoyColor) 1)).2
      = Speed.Normal ∧
    (stepStop Cpu.new (Config.set_speed_switch (Config.new DeviceMode.GameBoyColor) 1)).1.halt
      = true ∧
    Speed.Normal ≠ Speed.Double := by
  decide

/-- C6 amended: executing opcode $10 always halts the CPU and never
touches the config, whether or not the switch is armed; moreover every
write to $FF4D stores `value & 1`, so the stored speed bit is always 0
and the current speed after any such write is Normal. -/
theorem stop_always_halts_and_speed_stays_normal
    (cpu : Cpu.State) (cfg : Config.State) (v : Nat) :
    (stepStop cpu cfg).1 = { cpu with halt := true } ∧
    (stepStop cpu cfg).2 = cfg ∧
    Config.current_speed (Config.set_speed_switch cfg v) = Speed.Normal := by
  refine ⟨rfl, rfl, ?_⟩
  have h1 : v &&& 1 ≤ 1 := Nat.and_le_right
  have h2 : (v &&& 1) >>> 7 = 0 := by
    rw [Nat.shiftRight_eq_div_pow]
    omega
  have h3 : ((v &&& 1) >>> 7) &&& 1 ≠ 1 := by
    rw [h2]
    decide
  simp only [Config.current_speed, Config.set_speed_switch, Config.PrepareSpeedSwitch.speed]
  rw [if_neg h3]

/-- C9 counterexample: $FF03 is routed to no component or register, and
the catch-all arm of `Bus::read` returns $00, not the claimed $FF. -/
theorem bus_read_ff03_returns_zero :
    Bus.read bus0 ctx0 0xFF03 = some 0x00 ∧ (0x00 : Nat) ≠ 0xFF := by
  exact ⟨rfl, by decide⟩

/-- C10: `Mbc1::new` initialises the combined RAM-bank/upper-ROM-bank
register to 1, so before any bank-register write the switchable region
$4000-7FFF reads from ROM bank ((1<<5)|1) AND mask = 33 for every ROM of
at least 1 MiB, and after selecting banking mode 1 (the only register
write involved) the fixed region $0000-3FFF reads from bank
(1<<5) AND mask = 32. -/
theorem mbc1_powers_on_with_upper_bank_one (rom : Rom) (backup : Option ByteVec)
    (hsize : rom.romSize = 0x100000 ∨ rom.romSize = 0x200000 ∨
             rom.romSize = 0x400000 ∨ rom.romSize = 0x800000) :
    (Mbc1.new rom backup).ram_bank_or_upper_rom_bank = 1 ∧
    (∀ address, 0x4000 ≤ address → address ≤ 0x7FFF →
      Mbc1.read (Mbc1.new rom backup) address =
        ByteVec.read rom.data (33 * 0x4000 + (address &&& 0x3FFF))) ∧
    (∀ address m1, address ≤ 0x3FFF →
      Mbc1.write (Mbc1.new rom backup) 0x6000 0x01 = some m1 →
      Mbc1.read m1 address = ByteVec.read rom.data (32 * 0x4000 + address)) := by
  have hmask1 : ((1 <<< 5) % 256 ||| 1) &&& ((rom.romSize / 0x4000 - 1) % 256) = 33 := by
    rcases hsize with h | h | h | h <;> rw [h] <;> decide
  have hmask2 : ((1 <<< 5) % 256) &&& ((rom.romSize / 0x4000 - 1) % 256) = 32 := by
    rcases hsize with h | h | h | h <;> rw [h] <;> decide
  refine ⟨rfl, ?_, ?_⟩
  · intro address h1 h2
    simp only [Mbc1.read, Mbc1.new]
    rw [if_neg (by omega), if_pos h2]
    rw [hmask1]
  · intro address m1 h1 hw
    simp only [Mbc1.write, Mbc1.new] at hw
    rw [if_neg (by decide), if_neg (by decide), if_neg (by decide),
        if_pos (by decide)] at hw
    obtain rfl := Option.some.inj hw
    simp only [Mbc1.read]
    rw [if_pos h1, if_pos (by decide)]
    rw [hmask2]

/-- C10 witness: the concrete 1 MiB MBC1 cartridge just constructed
serves $4000 from bank 33. -/
theorem mbc1_powers_on_with_upper_bank_one_witness :
    Mbc1.read (Mbc1.new rom1M none) 0x4000 =
      ByteVec.read rom1M.data (33 * 0x4000 + (0x4000 &&& 0x3FFF)) :=
  (mbc1_powers_on_with_upper_bank_one rom1M none (Or.inl rfl)).2.1 0x4000
    (by decide) (by decide)

/-- C9 amended: every bus read of an address routed to no component or
register (the catch-all arm: $FF03, $FF08-0E, $FF4E, $FF56-67, $FF6C-6F,
$FF71) returns $00, for every bus state and every context. -/
theorem bus_unmapped_reads_return_zero (s : Bus.State) (ctx : Bus.Ctx) (a : Nat)
    (h : Bus.UnmappedRead a) :
    Bus.read s ctx a = some 0x00 := by
  rcases h with h | ⟨h1, h2⟩ | h | ⟨h1, h2⟩ | ⟨h1, h2⟩ | h
  · subst h; rfl
  · interval_cases a <;> rfl
  · subst h; rfl
  · interval_cases a <;> rfl
  · interval_cases a <;> rfl
  · subst h; rfl

/-- C9 witness: the $FF08 read on the concrete DMG bus returns $00. -/
theorem bus_unmapped_reads_return_zero_witness :
    Bus.read bus0 ctx0 0xFF08 = some 0x00 :=
  bus_unmapped_reads_return_zero bus0 ctx0 0xFF08 (Or.inr (Or.inl (by decide)))

/-- C8 counterexample: the claimed invariant holds after triggering
pulse 1 with full volume (NR12 := $F0, NR14 := $80) but is destroyed by
the register write NR12 := $00, which disables the DAC (volume 0,
decreasing envelope) while leaving `is_on` true - so it is not preserved
by every APU register write. -/
theorem apu_dac_half_of_invariant_not_preserved :
    Apu.ClaimInv Apu.triggeredPulse1 ∧
    ¬ Apu.ClaimInv (Apu.write Apu.triggeredPulse1 0xFF12 0x00) := by
  decide

theorem pulse_trigger_len (p : Apu.Pulse) : (Apu.Pulse.trigger p).length_timer ≠ 0 := by
  unfold Apu.Pulse.trigger
  simp only []
  by_cases h : p.length_timer = 0 <;>
    simp_all [apply_ite Apu.Pulse.length_timer]

theorem pulse_inv_ite (c : Prop) [inst : Decidable c] (a b : Apu.Pulse)
    (ha : Apu.Pulse.inv a) (hb : Apu.Pulse.inv b) :
    Apu.Pulse.inv (if c then a else b) := by
  split
  · exact ha
  · exact hb

theorem pulse_length_tick_inv (p : Apu.Pulse) :
    Apu.Pulse.inv (Apu.Pulse.length_tick p) := by
  unfold Apu.Pulse.inv Apu.Pulse.length_tick
  simp only []
  split <;> simp_all

theorem pulse_envelope_tick_is_on (p : Apu.Pulse) :
    (Apu.Pulse.envelope_tick p).is_on = p.is_on := by
  unfold Apu.Pulse.envelope_tick
  simp only []
  repeat' split
  all_goals rfl

theorem pulse_envelope_tick_lt (p : Apu.Pulse) :
    (Apu.Pulse.envelope_tick p).length_timer = p.length_timer := by
  unfold Apu.Pulse.envelope_tick
  simp only []
  repeat' split
  all_goals rfl

theorem pulse_envelope_tick_inv (p : Apu.Pulse) (h : Apu.Pulse.inv p) :
    Apu.Pulse.inv (Apu.Pulse.envelope_tick p) := by
  unfold Apu.Pulse.inv at h ⊢
  rw [pulse_envelope_tick_is_on, pulse_envelope_tick_lt]
  exact h

theorem pulse_sweep_tick_lt (p : Apu.Pulse) :
    (Apu.Pulse.sweep_tick p).length_timer = p.length_timer := by
  unfold Apu.Pulse.sweep_tick
  simp only []
  repeat' split
  all_goals rfl

theorem pulse_sweep_tick_is_on (p : Apu.Pulse) :
    (Apu.Pulse.sweep_tick p).is_on = true → p.is_on = true := by
  unfold Apu.Pulse.sweep_tick
  simp only []
  repeat' split
  all_goals simp

theorem pulse_sweep_tick_inv (p : Apu.Pulse) (h : Apu.Pulse.inv p) :
    Apu.Pulse.inv (Apu.Pulse.sweep_tick p) := by
  unfold Apu.Pulse.inv at h ⊢
  intro hOn
  rw [pulse_sweep_tick_lt]
  exact h (pulse_sweep_tick_is_on p hOn)

theorem pulse_inv_ite_sweep (c : Prop) [inst : Decidable c] (a : Apu.Pulse)
    (ha : Apu.Pulse.inv a) :
    Apu.Pulse.inv (if c then Apu.Pulse.sweep_tick a else a) :=
  pulse_inv_ite c _ a (pulse_sweep_tick_inv a ha) ha

theorem pulse_inv_ite_env (c : Prop) [inst : Decidable c] (a : Apu.Pulse)
    (ha : Apu.Pulse.inv a) :
    Apu.Pulse.inv (if c then Apu.Pulse.envelope_tick a else a) :=
  pulse_inv_ite c _ a (pulse_envelope_tick_inv a ha) ha

theorem pulse_inv_ite_len (c : Prop) [inst : Decidable c] (a : Apu.Pulse)
    (ha : Apu.Pulse.inv a) :
    Apu.Pulse.inv (if c then Apu.Pulse.length_tick a else a) :=
  pulse_inv_ite c _ a (pulse_length_tick_inv a) ha

theorem pulse_write_inv (p : Apu.Pulse) (off v : Nat) (h : Apu.Pulse.inv p) :
    Apu.Pulse.inv (Apu.Pulse.write p off v) := by
  have hv : v &&& 0x3F ≤ 0x3F := Nat.and_le_right
  unfold Apu.Pulse.write
  simp only []
  split
  · exact h
  · split
    · intro hOn
      show 64 - (v &&& 0x3F) ≠ 0
      omega
    · split
      · exact h
      · split
        · exact h
        · split
          · exact pulse_inv_ite _ _ _ (fun _ => pulse_trigger_len _) h
          · exact h

theorem pulse_tick_inv (p : Apu.Pulse) (l v sw : Bool) (h : Apu.Pulse.inv p) :
    Apu.Pulse.inv (Apu.Pulse.tick p l v sw) := by
  unfold Apu.Pulse.tick
  simp only []
  apply pulse_inv_ite_sweep
  apply pulse_inv_ite_env
  apply pulse_inv_ite_len
  exact pulse_inv_ite _ _ _ h h

theorem wave_trigger_len (w : Apu.Wave) : (Apu.Wave.trigger w).length_timer ≠ 0 := by
  unfold Apu.Wave.trigger
  simp only []
  by_cases h : w.length_timer = 0 <;> simp_all

theorem wave_inv_ite (c : Prop) [inst : Decidable c] (a b : Apu.Wave)
    (ha : Apu.Wave.inv a) (hb : Apu.Wave.inv b) :
    Apu.Wave.inv (if c then a else b) := by
  split
  · exact ha
  · exact hb

theorem wave_length_tick_inv (w : Apu.Wave) :
    Apu.Wave.inv (Apu.Wave.length_tick w) := by
  unfold Apu.Wave.inv Apu.Wave.length_tick
  simp only []
  split <;> simp_all

theorem wave_write_inv (w : Apu.Wave) (address v : Nat) (hv : v < 256)
    (h : Apu.Wave.inv w) :
    Apu.Wave.inv (Apu.Wave.write w address v) := by
  unfold Apu.Wave.write
  simp only []
  split
  · exact h
  · split
    · intro hOn
      show 256 - v ≠ 0
      omega
    · split
      · exact h
      · split
        · exact h
        · split
          · exact wave_inv_ite _ _ _ (fun _ => wave_trigger_len _) h
          · exact h

theorem wave_tick_inv (w : Apu.Wave) (l : Bool) (h : Apu.Wave.inv w) :
    Apu.Wave.inv (Apu.Wave.tick w l) := by
  unfold Apu.Wave.tick
  simp only []
  apply wave_inv_ite
  · exact wave_length_tick_inv _
  · repeat' split
    all_goals exact h

theorem noise_trigger_len (n : Apu.Noise) : (Apu.Noise.trigger n).length_timer ≠ 0 := by
  unfold Apu.Noise.trigger
  simp only []
  by_cases h : n.length_timer = 0 <;> simp_all

theorem noise_inv_ite (c : Prop) [inst : Decidable c] (a b : Apu.Noise)
    (ha : Apu.Noise.inv a) (hb : Apu.Noise.inv b) :
    Apu.Noise.inv (if c then a else b) := by
  split
  · exact ha
  · exact hb

theorem noise_length_tick_inv (n : Apu.Noise) :
    Apu.Noise.inv (Apu.Noise.length_tick n) := by
  unfold Apu.Noise.inv Apu.Noise.length_tick
  simp only []
  split <;> simp_all

theorem noise_envelope_tick_is_on (n : Apu.Noise) :
    (Apu.Noise.envelope_tick n).is_on = n.is_on := by
  unfold Apu.Noise.envelope_tick
  simp only []
  repeat' split
  all_goals rfl

theorem noise_envelope_tick_lt (n : Apu.Noise) :
    (Apu.Noise.envelope_tick n).length_timer = n.length_timer := by
  unfold Apu.Noise.envelope_tick
  simp only []
  repeat' split
  all_goals rfl

theorem noise_envelope_tick_inv (n : Apu.Noise) (h : Apu.Noise.inv n) :
    Apu.Noise.inv (Apu.Noise.envelope_tick n) := by
  unfold Apu.Noise.inv at h ⊢
  rw [noise_envelope_tick_is_on, noise_envelope_tick_lt]
  exact h

theorem noise_write_inv (n : Apu.Noise) (address v : Nat) (h : Apu.Noise.inv n) :
    Apu.Noise.inv (Apu.Noise.write n address v) := by
  have hv : v &&& 0x3F ≤ 0x3F := Nat.and_le_right
  unfold Apu.Noise.write
  simp only []
  split
  · intro hOn
    show 64 - (v &&& 0x3F) ≠ 0
    omega
  · split
    · exact h
    · split
      · exact h
      · split
        · exact noise_inv_ite _ _ _ (fun _ => noise_trigger_len _) h
        · exact h

theorem noise_tick_inv (n : Apu.Noise) (l v : Bool) (h : Apu.Noise.inv n) :
    Apu.Noise.inv (Apu.Noise.tick n l v) := by
  unfold Apu.Noise.tick
  simp only []
  apply noise_inv_ite
  · apply noise_envelope_tick_inv
    apply noise_inv_ite
    · exact noise_length_tick_inv _
    · repeat' split
      all_goals exact h
  · apply noise_inv_ite
    · exact noise_length_tick_inv _
    · repeat' split
      all_goals exact h

theorem apu_write_len_inv (s : Apu.State) (address value : Nat) (h : Apu.LenInv s) :
    Apu.LenInv (Apu.write s address value) := by
  unfold Apu.LenInv at h ⊢
  obtain ⟨h0, h1, h2, h3⟩ := h
  unfold Apu.write
  simp only []
  generalize address - 0xFF10 = off0
  generalize address - 0xFF15 = off1
  generalize address - 0xFF30 = off2
  repeat' split
  · refine ⟨?_, h1, h2, h3⟩
    exact pulse_write_inv s.pulse0 off0 (value % 256) h0
  · refine ⟨h0, ?_, h2, h3⟩
    exact pulse_write_inv s.pulse1 off1 (value % 256) h1
  · refine ⟨h0, h1, ?_, h3⟩
    exact wave_write_inv s.wave address (value % 256) (Nat.mod_lt value (by decide)) h2
  · refine ⟨h0, h1, h2, ?_⟩
    exact noise_write_inv s.noise address (value % 256) h3
  · exact ⟨h0, h1, h2, h3⟩
  · exact ⟨h0, h1, h2, h3⟩
  · exact ⟨h0, h1, h2, h3⟩
  · exact ⟨h0, h1, h2, h3⟩
  · exact ⟨h0, h1, h2, h3⟩

theorem apu_tickT_len_inv (s : Apu.State) (h : Apu.LenInv s) :
    Apu.LenInv (Apu.tickT s) := by
  unfold Apu.LenInv at h ⊢
  obtain ⟨h0, h1, h2, h3⟩ := h
  unfold Apu.tickT
  simp only []
  repeat' split
  all_goals
    first
    | exact ⟨h0, h1, h2, h3⟩
    | exact ⟨pulse_tick_inv _ _ _ _ h0, pulse_tick_inv _ _ _ _ h1,
             wave_tick_inv _ _ h2, noise_tick_inv _ _ _ h3⟩

theorem apu_applyN_tickT_len_inv (n : Nat) (s : Apu.State) (h : Apu.LenInv s) :
    Apu.LenInv (applyN Apu.tickT n s) := by
  induction n generalizing s with
  | zero => exact h
  | succ n ih => exact ih _ (apu_tickT_len_inv s h)

/-- C8 amended: the length half of the claimed invariant is genuinely
preserved: if every switched-on channel has an unexpired length timer,
then the same holds after any APU register write and after any machine
cycle tick in either speed (the DAC half is not maintained: a write can
disable a channel's DAC while it stays on, as the counterexample shows -
the DAC condition is only consulted at trigger time). -/
theorem apu_length_invariant_preserved (s : Apu.State) (h : Apu.LenInv s) :
    (∀ address value, Apu.LenInv (Apu.write s address value)) ∧
    (∀ speed, Apu.LenInv (Apu.tick s speed)) := by
  refine ⟨fun a v => apu_write_len_inv s a v h, fun sp => ?_⟩
  cases sp
  · exact apu_applyN_tickT_len_inv 4 s h
  · exact apu_applyN_tickT_len_inv 2 s h

/-- C8 witness: the length invariant holds at reset and is carried
through a concrete register write and a concrete machine-cycle tick. -/
theorem apu_length_invariant_preserved_witness :
    Apu.LenInv (Apu.write Apu.new 0xFF12 0xF0) ∧
    Apu.LenInv (Apu.tick Apu.new Speed.Normal) := by
  have h := apu_length_invariant_preserved Apu.new (by decide)
  exact ⟨h.1 0xFF12 0xF0, h.2 Speed.Normal⟩

theorem serial_tick_no_cable (s : Serial.State) (h : s.link_cable = none) :
    Serial.tick s = (s, false) := by
  unfold Serial.tick
  rw [h]
  split <;> rfl

theorem serial_applyN_tick_no_cable (s : Serial.State) (h : s.link_cable = none) (n : Nat) :
    applyN (fun x => (Serial.tick x).1) n s = s := by
  induction n with
  | zero => rfl
  | succ n ih =>
      simp only [applyN]
      rw [serial_tick_no_cable s h]
      exact ih

theorem sc_clear_transfer_flag (sc : Serial.Sc) :
    Serial.Sc.transferFlag (Serial.Sc.clearTransfer sc) = false := by
  unfold Serial.Sc.clearTransfer Serial.Sc.transferFlag
  simp only []
  have h1 : sc.bits &&& 0x7F ≤ 0x7F := Nat.and_le_right
  have h2 : (sc.bits &&& 0x7F) >>> 7 = 0 := by
    rw [Nat.shiftRight_eq_div_pow]
    omega
  rw [h2]
  decide

/-- C7 counterexample: with no link collaborator attached, a transfer
started by writing $81 to $FF02 never completes: after 1024 ticks (more
than the claimed 8·128 T-cycles) the transfer-in-progress bit is still
set, SB still holds $00 (no all-ones byte was shifted in) and no Serial
interrupt has been or will be raised by a further tick. -/
theorem serial_transfer_never_completes_without_collaborator :
    Serial.write (Serial.new none) 0xFF02 0x81 = some Serial.started ∧
    applyN (fun x => (Serial.tick x).1) 1024 Serial.started = Serial.started ∧
    Serial.started.sc.transferFlag = true ∧
    Serial.started.buf = 0 ∧
    (Serial.tick Serial.started).2 = false := by
  refine ⟨rfl, serial_applyN_tick_no_cable _ rfl 1024, rfl, rfl, rfl⟩

/-- C7 amended: starting a transfer by a $FF02 write with bit 7 set (on
a unit not already transferring) latches SB into the send buffer and
sets the never-consulted tick_timer to 1024; a tick with no collaborator
does nothing (no timing, no $FF fill, no interrupt); with an internal
clock, a transfer in progress completes in the first tick in which the
collaborator's try_recv supplies a byte - SB receives that byte, the
transfer-in-progress bit clears, and the Serial interrupt is raised. -/
theorem serial_transfer_requires_collaborator :
    (∀ (s : Serial.State) (v : Nat), Serial.Sc.transferFlag s.sc = false →
       (v >>> 7) &&& 1 = 1 →
       Serial.write s 0xFF02 v =
         some { s with sc := { bits := v }, send_buf := some s.buf, tick_timer := 1024 }) ∧
    (∀ s : Serial.State, s.link_cable = none → Serial.tick s = (s, false)) ∧
    (∀ (s : Serial.State) (lc : Serial.LinkCable) (b : Nat) (rest : List (Option Nat)),
       s.link_cable = some lc → Serial.Sc.transferFlag s.sc = true →
       Serial.Sc.clockIsInternal s.sc = true → lc.recv_stream = some b :: rest →
       (Serial.tick s).2 = true ∧ (Serial.tick s).1.buf = b ∧
         Serial.Sc.transferFlag (Serial.tick s).1.sc = false) := by
  refine ⟨?_, fun s h => serial_tick_no_cable s h, ?_⟩
  · intro s v h0 h7
    unfold Serial.write
    rw [if_neg (by decide), if_pos rfl]
    simp only []
    have hc : Serial.Sc.transferFlag { bits := v } = true ∧ Serial.Sc.transferFlag s.sc = false :=
      ⟨by simp [Serial.Sc.transferFlag, h7], h0⟩
    rw [if_pos hc]
  · intro s lc b rest hlc ht hint hrecv
    unfold Serial.tick Serial.LinkCable.try_recv Serial.LinkCable.send
    rcases hsb : s.send_buf with _ | sv <;>
      simp [hlc, ht, hint, hrecv, hsb, sc_clear_transfer_flag]

/-- C7 witness: the three parts of the amended statement instantiated on
concrete serial units. -/
theorem serial_transfer_requires_collaborator_witness :
    Serial.write (Serial.new none) 0xFF02 0x81 = some Serial.started ∧
    Serial.tick (Serial.new none) = (Serial.new none, false) ∧
    (Serial.tick Serial.linked).2 = true := by
  obtain ⟨h1, h2, h3⟩ := serial_transfer_requires_collaborator
  exact ⟨h1 (Serial.new none) 0x81 rfl (by decide), h2 (Serial.new none) rfl,
    (h3 Serial.linked { recv_stream := [some 0x42], sent := [] } 0x42 [] rfl rfl rfl rfl).1⟩


theorem stat_ofByte_masked_mode (v : Nat) :
    (Ppu.Stat.ofByte (v &&& 0x7C)).ppu_mode = Ppu.PpuMode.HBlank := by
  unfold Ppu.Stat.ofByte
  simp only []
  have h : (v &&& 0x7C) &&& 3 = 0 := by
    rw [Nat.and_assoc]
    exact Nat.and_zero v
  rw [h]
  rfl

theorem ppu_read_stat_mode (p : Ppu.State) (dm : DeviceMode) (a : Nat) :
    ((Ppu.read p dm a).1).stat.ppu_mode = p.stat.ppu_mode := by
  unfold Ppu.read
  simp only []
  by_cases h1 : 0x8000 ≤ a ∧ a ≤ 0x9FFF
  · rw [if_pos h1]
  rw [if_neg h1]
  by_cases h2 : 0xFE00 ≤ a ∧ a ≤ 0xFE9F
  · rw [if_pos h2]
  rw [if_neg h2]
  by_cases h3 : a = 0xFF40
  · rw [if_pos h3]
  rw [if_neg h3]
  by_cases h4 : a = 0xFF41
  · rw [if_pos h4]
  rw [if_neg h4]
  by_cases h5 : a = 0xFF42
  · rw [if_pos h5]
  rw [if_neg h5]
  by_cases h6 : a = 0xFF43
  · rw [if_pos h6]
  rw [if_neg h6]
  by_cases h7 : a = 0xFF44
  · rw [if_pos h7]
  rw [if_neg h7]
  by_cases h8 : a = 0xFF45
  · rw [if_pos h8]
  rw [if_neg h8]
  by_cases h9 : a = 0xFF47
  · rw [if_pos h9]
  rw [if_neg h9]
  by_cases h10 : a = 0xFF48
  · rw [if_pos h10]
  rw [if_neg h10]
  by_cases h11 : a = 0xFF49
  · rw [if_pos h11]
  rw [if_neg h11]
  by_cases h12 : a = 0xFF4A
  · rw [if_pos h12]
  rw [if_neg h12]
  by_cases h13 : a = 0xFF4B
  · rw [if_pos h13]
  rw [if_neg h13]
  by_cases h14 : a = 0xFF4F
  · rw [if_pos h14]
  rw [if_neg h14]
  by_cases h15 : a = 0xFF68 ∨ a = 0xFF69
  · rw [if_pos h15]
  rw [if_neg h15]
  by_cases h16 : a = 0xFF6A ∨ a = 0xFF6B
  · rw [if_pos h16]
  rw [if_neg h16]

theorem ppu_write_stat_mode (p : Ppu.State) (dm : DeviceMode) (a v : Nat) (p2 : Ppu.State)
    (hw : Ppu.write p dm a v = some p2)
    (h : p.stat.ppu_mode = Ppu.PpuMode.HBlank) :
    p2.stat.ppu_mode = Ppu.PpuMode.HBlank := by
  unfold Ppu.write at hw
  simp only [] at hw
  by_cases h1 : 0x8000 ≤ a ∧ a ≤ 0x9FFF
  · rw [if_pos h1] at hw
    rcases hv : p.vram.write (p.vram_bank * 0x2000 + (a - 0x8000)) v with _ | vram <;>
      rw [hv] at hw <;> cases hw
    exact h
  rw [if_neg h1] at hw
  by_cases h2 : 0xFE00 ≤ a ∧ a ≤ 0xFE9F
  · rw [if_pos h2] at hw
    rcases hv : p.oam.write (a - 0xFE00) v with _ | oam <;>
      rw [hv] at hw <;> cases hw
    exact h
  rw [if_neg h2] at hw
  by_cases h3 : a = 0xFF40
  · rw [if_pos h3] at hw
    cases hw
    by_cases hc : Ppu.lcdEnable p.lcdc = false ∧ Ppu.lcdEnable v
    · rw [if_pos hc]
      exact h
    · rw [if_neg hc]
      exact h
  rw [if_neg h3] at hw
  by_cases h4 : a = 0xFF41
  · rw [if_pos h4] at hw
    cases hw
    exact stat_ofByte_masked_mode v
  rw [if_neg h4] at hw
  by_cases h5 : a = 0xFF42
  · rw [if_pos h5] at hw
    cases hw
    exact h
  rw [if_neg h5] at hw
  by_cases h6 : a = 0xFF43
  · rw [if_pos h6] at hw
    cases hw
    exact h
  rw [if_neg h6] at hw
  by_cases h7 : a = 0xFF45
  · rw [if_pos h7] at hw
    cases hw
    exact h
  rw [if_neg h7] at hw
  by_cases h8 : a = 0xFF47
  · rw [if_pos h8] at hw
    cases hw
    exact h
  rw [if_neg h8] at hw
  by_cases h9 : a = 0xFF48
  · rw [if_pos h9] at hw
    cases hw
    exact h
  rw [if_neg h9] at hw
  by_cases h10 : a = 0xFF49
  · rw [if_pos h10] at hw
    cases hw
    exact h
  rw [if_neg h10] at hw
  by_cases h11 : a = 0xFF4A
  · rw [if_pos h11] at hw
    cases hw
    exact h
  rw [if_neg h11] at hw
  by_cases h12 : a = 0xFF4B
  · rw [if_pos h12] at hw
    cases hw
    exact h
  rw [if_neg h12] at hw
  by_cases h13 : a = 0xFF4F
  · rw [if_pos h13] at hw
    cases hw
    by_cases hc : dm = DeviceMode.GameBoyColor
    · rw [if_pos hc]
      exact h
    · rw [if_neg hc]
      exact h
  rw [if_neg h13] at hw
  by_cases h14 : a = 0xFF68 ∨ a = 0xFF69
  · rw [if_pos h14] at hw
    rcases hv : Ppu.ColorPalette.write p.bg_color_palette (a - 0xFF68) v with _ | c <;>
      rw [hv] at hw <;> cases hw
    exact h
  rw [if_neg h14] at hw
  by_cases h15 : a = 0xFF6A ∨ a = 0xFF6B
  · rw [if_pos h15] at hw
    rcases hv : Ppu.ColorPalette.write p.obj_color_palette (a - 0xFF6A) v with _ | c <;>
      rw [hv] at hw <;> cases hw
    exact h
  rw [if_neg h15] at hw
  cases hw
  exact h

theorem ppu_render_scanline_regs_stat (p : Ppu.State) :
    (Ppu.render_scanline_regs p).stat = p.stat := by
  unfold Ppu.render_scanline_regs
  simp only []
  split
  · split <;> rfl
  · split <;> rfl

theorem ppu_update_lx_ly_stat (p : Ppu.State) :
    (Ppu.update_lx_ly p).stat = p.stat := by
  unfold Ppu.update_lx_ly
  simp only []
  split
  · split <;> rfl
  · rfl

theorem ppu_set_mode_stat (p : Ppu.State) (m : Ppu.PpuMode) (f : IntFlags) :
    ((Ppu.set_mode p m f).1).stat = p.stat := by
  unfold Ppu.set_mode
  simp only []
  repeat' split
  all_goals first
    | rfl
    | exact ppu_render_scanline_regs_stat p

theorem ppu_update_mode_stat (p : Ppu.State) (f : IntFlags) :
    ((Ppu.update_mode p f).1).stat = p.stat := by
  unfold Ppu.update_mode
  repeat' split
  all_goals exact ppu_set_mode_stat p _ f

theorem ppu_update_interrupt_stat (p : Ppu.State) (f : IntFlags) :
    ((Ppu.update_interrupt p f).1).stat = p.stat := rfl

theorem ppu_tick_pixel_stat (p : Ppu.State) (f : IntFlags) :
    ((Ppu.tick_pixel p f).1).stat = p.stat := by
  unfold Ppu.tick_pixel
  simp only []
  split
  · exact ppu_update_lx_ly_stat p
  · cases hq : Ppu.update_mode (Ppu.update_lx_ly p) f with
    | mk q g =>
        have h1 : q.stat = (Ppu.update_lx_ly p).stat := by
          rw [← ppu_update_mode_stat (Ppu.update_lx_ly p) f, hq]
        exact (ppu_update_interrupt_stat q g).trans (h1.trans (ppu_update_lx_ly_stat p))

theorem ppu_applyN_tick_pixel_stat (n : Nat) (x : Ppu.State × IntFlags) :
    ((applyN (fun y => Ppu.tick_pixel y.1 y.2) n x).1).stat = x.1.stat := by
  induction n generalizing x with
  | zero => rfl
  | succ n ih =>
      simp only [applyN]
      exact (ih _).trans (ppu_tick_pixel_stat x.1 x.2)

theorem ppu_tick_stat (p : Ppu.State) (sp : Speed) (f : IntFlags) :
    ((Ppu.tick p sp f).1).stat = p.stat := by
  cases sp
  · exact ppu_applyN_tick_pixel_stat 4 (p, f)
  · exact ppu_applyN_tick_pixel_stat 2 (p, f)

theorem ppu_reach_stat_mode {dm : DeviceMode} {p : Ppu.State} (h : Ppu.Reach dm p) :
    p.stat.ppu_mode = Ppu.PpuMode.HBlank := by
  induction h with
  | init => rfl
  | read a h ih =>
      rw [ppu_read_stat_mode]
      exact ih
  | write a v h hw ih => exact ppu_write_stat_mode _ _ _ _ _ hw ih
  | tick sp iflags h ih =>
      rw [ppu_tick_stat]
      exact ih

theorem stat_toByte_low_bits (s : Ppu.Stat) (h : s.ppu_mode = Ppu.PpuMode.HBlank) :
    Ppu.Stat.toByte s &&& 3 = 0 ∧
      (Ppu.Stat.toByte s).testBit 2 = s.lyc_ly_coincidence := by
  obtain ⟨m, c, hb, vb, ob, lb⟩ := s
  simp only [] at h
  subst h
  unfold Ppu.Stat.toByte
  cases c <;> cases hb <;> cases vb <;> cases ob <;> cases lb <;> exact ⟨by decide, by decide⟩

/-- C4 counterexample: in the freshly constructed (reachable) PPU state
the live mode is OamSearch (encoding 2), yet a read of $FF41 returns $04,
whose bits 0-1 are 0: the STAT read does not report the PPU's current
mode. -/
theorem stat_read_does_not_report_current_mode :
    Ppu.ppu_mode (Ppu.new DeviceMode.GameBoy) = Ppu.PpuMode.OamSearch ∧
    (Ppu.read (Ppu.new DeviceMode.GameBoy) DeviceMode.GameBoy 0xFF41).2 = some 4 ∧
    (4 : Nat) &&& 3 ≠ Ppu.PpuMode.bits Ppu.PpuMode.OamSearch := by
  refine ⟨rfl, rfl, by decide⟩

/-- C4 amended: the live PPU mode is tracked in a field the STAT byte
never sees.  In every reachable PPU state a read of $FF41 returns a byte
whose bit 2 equals (LY = LYC) and whose bits 0-1 are 0 (the stored STAT
mode field stays at its decoded-from-zero value HBlank forever, so the
mode bits never reflect the current mode); a write to $FF41 replaces the
whole STAT register with the value masked by $7C, keeping LY, LYC and the
live mode; and a write to $FF44 leaves the PPU state, in particular LY,
unchanged. -/
theorem stat_ly_register_semantics :
    (∀ (dm : DeviceMode) (p : Ppu.State), Ppu.Reach dm p →
       ∃ v, (Ppu.read p dm 0xFF41).2 = some v ∧ v &&& 3 = 0 ∧
         (v.testBit 2 = true ↔ p.ly = p.lyc)) ∧
    (∀ (dm : DeviceMode) (p : Ppu.State) (v : Nat) (p2 : Ppu.State),
       Ppu.write p dm 0xFF41 v = some p2 →
       p2.stat = Ppu.Stat.ofByte (v &&& 0x7C) ∧ p2.ly = p.ly ∧ p2.lyc = p.lyc ∧
         p2.mode = p.mode) ∧
    (∀ (dm : DeviceMode) (p : Ppu.State) (v : Nat) (p2 : Ppu.State),
       Ppu.write p dm 0xFF44 v = some p2 → p2 = p) := by
  refine ⟨?_, ?_, ?_⟩
  · intro dm p hreach
    have hmode : p.stat.ppu_mode = Ppu.PpuMode.HBlank := ppu_reach_stat_mode hreach
    have hm2 : ({ p.stat with lyc_ly_coincidence := p.ly = p.lyc } : Ppu.Stat).ppu_mode
        = Ppu.PpuMode.HBlank := hmode
    refine ⟨Ppu.Stat.toByte { p.stat with lyc_ly_coincidence := p.ly = p.lyc },
      rfl, ?_, ?_⟩
    · exact (stat_toByte_low_bits _ hm2).1
    · rw [(stat_toByte_low_bits _ hm2).2]
      exact decide_eq_true_iff
  · intro dm p v p2 hw
    have h41 : Ppu.write p dm 0xFF41 v =
        some { p with stat := Ppu.Stat.ofByte (v &&& 0x7C) } := rfl
    rw [h41] at hw
    obtain rfl := Option.some.inj hw
    exact ⟨rfl, rfl, rfl, rfl⟩
  · intro dm p v p2 hw
    have h44 : Ppu.write p dm 0xFF44 v = some p := rfl
    rw [h44] at hw
    exact (Option.some.inj hw).symm

/-- C4 witness: the read part of the amended statement instantiated at
the construction state, which is reachable by definition. -/
theorem stat_ly_register_semantics_witness :
    ∃ v, (Ppu.read (Ppu.new DeviceMode.GameBoy) DeviceMode.GameBoy 0xFF41).2 = some v ∧
      v &&& 3 = 0 ∧
      (v.testBit 2 = true ↔
        (Ppu.new DeviceMode.GameBoy).ly = (Ppu.new DeviceMode.GameBoy).lyc) :=
  stat_ly_register_semantics.1 DeviceMode.GameBoy (Ppu.new DeviceMode.GameBoy) Ppu.Reach.init
